import Mathlib

/-!
# Window-surface session of `wayland_wrapper.c`

A shallow embedding of the C translation unit `src/wayland_wrapper.c`.

* The eight file-scope variables (`display`, `registry`, `compositor`, `surface`, `shell`,
  `shell_surface`, `toplevel`, `quit`) are the first eight fields of `World`.
* The Wayland client library is the environment.  Every request the session sends to it is
  appended to `World.trace`; what the library answers (the pointer an acquisition returns, the
  events a dispatch or round-trip delivers) is an explicit argument of the operation, so a run is
  determined by the list of operations together with the library's answers.
* The library invokes a callback only for a proxy the session attached that listener to and has
  not destroyed since; `World.listeners` is the library's table of attached listeners.
* `printf` output goes to `World.out`.

Pointers are natural numbers, `0` is `NULL`.
-/

namespace WaylandWrapper

/-- A pointer handed out by the library; `0` is `NULL`. -/
abbrev Ptr := Nat

/-- The seven kinds of library object the session holds. -/
inductive Kind
  | display | registry | compositor | shell | surface | shell_surface | toplevel
  deriving DecidableEq

/-- The two interface descriptors the session passes to `wl_registry_bind`
(`&wl_compositor_interface`, `&xdg_wm_base_interface`). -/
inductive Iface
  | wl_compositor | xdg_wm_base
  deriving DecidableEq

/-- The `.name` members of the two interface descriptors, declared in the protocol headers
(`wayland-client.h`, `xdg-shell-client-protocol.h`), which `registry_global` compares the
announced interface with. They are parameters of the development. -/
structure Interfaces where
  wl_compositor_name : String
  xdg_wm_base_name : String
  deriving DecidableEq

/-- An event the library dispatches to one of the six callbacks of the file. The pointer is the
proxy the event is addressed to (the second argument of the C callback). In `registry_global`
the field `bound` is the proxy `wl_registry_bind` hands back when the session binds the
announced global. -/
inductive Event
  | registry_global (registry : Ptr) (id : Nat) (interface : String) (version : Nat) (bound : Ptr)
  | registry_global_remove (registry : Ptr) (name : Nat)
  | shell_ping (shell : Ptr) (serial : Nat)
  | shell_surface_configure (shell_surface : Ptr) (serial : Nat)
  | toplevel_configure (toplevel : Ptr) (width height : Int) (states : List Nat)
  | toplevel_close (toplevel : Ptr)
  deriving DecidableEq

/-- A call of the session into the library, with its arguments and, for an acquisition, the
pointer the library returned. -/
inductive Request
  | wl_display_connect (ret : Ptr)
  | wl_display_get_registry (display ret : Ptr)
  | wl_registry_add_listener (registry : Ptr)
  | wl_display_dispatch (display : Ptr)
  | wl_display_dispatch_pending (display : Ptr)
  | wl_display_roundtrip (display : Ptr)
  | wl_registry_bind (registry : Ptr) (id : Nat) (iface : Iface) (version : Nat) (ret : Ptr)
  | xdg_wm_base_add_listener (shell : Ptr)
  | xdg_wm_base_pong (shell : Ptr) (serial : Nat)
  | xdg_surface_ack_configure (shell_surface : Ptr) (serial : Nat)
  | wl_compositor_create_surface (compositor ret : Ptr)
  | xdg_wm_base_get_xdg_surface (shell surface ret : Ptr)
  | xdg_surface_add_listener (shell_surface : Ptr)
  | xdg_surface_get_toplevel (shell_surface ret : Ptr)
  | xdg_toplevel_add_listener (toplevel : Ptr)
  | xdg_toplevel_set_title (toplevel : Ptr) (title : String)
  | xdg_toplevel_set_app_id (toplevel : Ptr) (app_id : String)
  | wl_surface_commit (surface : Ptr)
  | xdg_toplevel_destroy (toplevel : Ptr)
  | xdg_surface_destroy (shell_surface : Ptr)
  | wl_surface_destroy (surface : Ptr)
  | xdg_wm_base_destroy (shell : Ptr)
  | wl_compositor_destroy (compositor : Ptr)
  | wl_registry_destroy (registry : Ptr)
  | wl_display_disconnect (display : Ptr)
  deriving DecidableEq

/-- One entry of the interaction trace between the session and the library: a request of the
session, or a callback the library ran. -/
inductive Entry
  | call (r : Request)
  | event (e : Event)
  deriving DecidableEq

/-- A line written by `printf`. The one format with arguments
(`"Missing compositor: %p or shell: %p\n"`) keeps its two pointer arguments. -/
inductive Printed
  | text (s : String)
  | missing (compositor shell : Ptr)
  deriving DecidableEq

/-- The state of the program: the file-scope variables of `wayland_wrapper.c`, the library's
table of attached listeners, the interaction trace and the standard output. -/
structure World where
  display : Ptr
  registry : Ptr
  compositor : Ptr
  surface : Ptr
  shell : Ptr
  shell_surface : Ptr
  toplevel : Ptr
  quit : Int
  listeners : List (Kind × Ptr)
  trace : List Entry
  out : List Printed
  deriving DecidableEq

/-- The state at program start: the initialisers of lines 8 to 15, nothing sent, nothing
printed, no listener attached. -/
def World.start : World :=
  { display := 0, registry := 0, compositor := 0, surface := 0, shell := 0, shell_surface := 0,
    toplevel := 0, quit := 0, listeners := [], trace := [], out := [] }

/-! ## The library side -/

/-- The session sends request `r`. -/
def World.call (w : World) (r : Request) : World :=
  { w with trace := w.trace ++ [Entry.call r] }

/-- The library records that it runs the callback for event `e`. -/
def World.fire (w : World) (e : Event) : World :=
  { w with trace := w.trace ++ [Entry.event e] }

/-- Output of `printf`. -/
def World.printf (w : World) (p : Printed) : World :=
  { w with out := w.out ++ [p] }

/-- An `*_add_listener` request: the library attaches the listener to proxy `p` of kind `k`. -/
def World.attach (w : World) (r : Request) (k : Kind) (p : Ptr) : World :=
  { w.call r with listeners := (k, p) :: w.listeners }

/-- A `*_destroy` request: the library drops proxy `p` of kind `k` and with it its listener. -/
def World.release (w : World) (r : Request) (k : Kind) (p : Ptr) : World :=
  { w.call r with listeners := w.listeners.filter (fun l => decide (l ≠ (k, p))) }

/-! ## The callbacks (lines 18 to 68) -/

/-- Lines 18 to 20. -/
def shell_ping (w : World) (shell : Ptr) (serial : Nat) : World :=
  w.call (Request.xdg_wm_base_pong shell serial)

/-- Lines 26 to 28. -/
def shell_surface_configure (w : World) (shell_surface : Ptr) (serial : Nat) : World :=
  w.call (Request.xdg_surface_ack_configure shell_surface serial)

/-- Lines 34 to 37: the body is empty. -/
def toplevel_configure (w : World) (_toplevel : Ptr) (_width _height : Int)
    (_states : List Nat) : World :=
  w

/-- Lines 39 to 41. -/
def toplevel_close (w : World) (_toplevel : Ptr) : World :=
  { w with quit := 1 }

/-- Lines 49 to 59. The parameter `registry` shadows the file-scope variable, as in the source;
`bound` is what `wl_registry_bind` returns. -/
def registry_global (I : Interfaces) (w : World) (registry : Ptr) (id : Nat)
    (interface : String) (_version : Nat) (bound : Ptr) : World :=
  if interface = I.wl_compositor_name then
    let w : World := w.call (Request.wl_registry_bind registry id Iface.wl_compositor 1 bound)
    let w : World := { w with compositor := bound }
    w.printf (Printed.text "Found compositor\n")
  else if interface = I.xdg_wm_base_name then
    let w : World := w.call (Request.wl_registry_bind registry id Iface.xdg_wm_base 1 bound)
    let w : World := { w with shell := bound }
    let w : World := w.attach (Request.xdg_wm_base_add_listener w.shell) Kind.shell w.shell
    w.printf (Printed.text "Found xdg_wm_base\n")
  else
    w

/-- Lines 61 to 63: the body is empty. -/
def registry_global_remove (w : World) (_registry : Ptr) (_name : Nat) : World :=
  w

/-- The library dispatches one event: when the addressed proxy has its listener attached the
callback of the matching listener table (`registry_listener`, `shell_listener`,
`shell_surface_listener`, `toplevel_listener`) runs, otherwise the event is dropped. -/
def deliver (I : Interfaces) (w : World) (e : Event) : World :=
  match e with
  | Event.registry_global r id interface version bound =>
      if (Kind.registry, r) ∈ w.listeners then
        registry_global I (w.fire e) r id interface version bound
      else w
  | Event.registry_global_remove r name =>
      if (Kind.registry, r) ∈ w.listeners then registry_global_remove (w.fire e) r name else w
  | Event.shell_ping s serial =>
      if (Kind.shell, s) ∈ w.listeners then shell_ping (w.fire e) s serial else w
  | Event.shell_surface_configure s serial =>
      if (Kind.shell_surface, s) ∈ w.listeners then
        shell_surface_configure (w.fire e) s serial
      else w
  | Event.toplevel_configure t width height states =>
      if (Kind.toplevel, t) ∈ w.listeners then
        toplevel_configure (w.fire e) t width height states
      else w
  | Event.toplevel_close t =>
      if (Kind.toplevel, t) ∈ w.listeners then toplevel_close (w.fire e) t else w

/-- The events of one `wl_display_dispatch`, `wl_display_dispatch_pending` or
`wl_display_roundtrip`, delivered in order. -/
def dispatch (I : Interfaces) (w : World) (events : List Event) : World :=
  events.foldl (deliver I) w

/-! ## The public interface (lines 71 to 181) -/

/-- What the library answers during one call of `wayland_init`, in the order the source asks. -/
structure InitScript where
  connect : Ptr
  get_registry : Ptr
  dispatch : List Event
  roundtrip : List Event
  create_surface : Ptr
  get_xdg_surface : Ptr
  get_toplevel : Ptr
  roundtrip2 : List Event
  deriving DecidableEq

/-- Lines 71 to 129. -/
def wayland_init (I : Interfaces) (L : InitScript) (w : World) : Int × World :=
  let w : World := w.printf (Printed.text "Initializing Wayland with XDG shell...\n")
  let w : World := { w.call (Request.wl_display_connect L.connect) with display := L.connect }
  if w.display = 0 then
    (0, w.printf (Printed.text "Failed to connect to Wayland display\n"))
  else
  let w : World := w.printf (Printed.text "Connected to Wayland display\n")
  let w : World := { w.call (Request.wl_display_get_registry w.display L.get_registry) with
             registry := L.get_registry }
  if w.registry = 0 then
    (0, w.printf (Printed.text "Failed to get registry\n"))
  else
  let w : World := w.attach (Request.wl_registry_add_listener w.registry) Kind.registry w.registry
  let w : World := dispatch I (w.call (Request.wl_display_dispatch w.display)) L.dispatch
  let w : World := dispatch I (w.call (Request.wl_display_roundtrip w.display)) L.roundtrip
  if w.compositor = 0 ∨ w.shell = 0 then
    (0, w.printf (Printed.missing w.compositor w.shell))
  else
  let w : World := { w.call (Request.wl_compositor_create_surface w.compositor L.create_surface) with
             surface := L.create_surface }
  if w.surface = 0 then
    (0, w.printf (Printed.text "Failed to create surface\n"))
  else
  let w : World := w.printf (Printed.text "Created surface\n")
  let w : World := { w.call (Request.xdg_wm_base_get_xdg_surface w.shell w.surface L.get_xdg_surface) with
             shell_surface := L.get_xdg_surface }
  if w.shell_surface = 0 then
    (0, w.printf (Printed.text "Failed to create shell surface\n"))
  else
  let w : World := w.attach (Request.xdg_surface_add_listener w.shell_surface)
             Kind.shell_surface w.shell_surface
  let w : World := { w.call (Request.xdg_surface_get_toplevel w.shell_surface L.get_toplevel) with
             toplevel := L.get_toplevel }
  if w.toplevel = 0 then
    (0, w.printf (Printed.text "Failed to create toplevel\n"))
  else
  let w : World := w.attach (Request.xdg_toplevel_add_listener w.toplevel) Kind.toplevel w.toplevel
  let w : World := w.call (Request.xdg_toplevel_set_title w.toplevel "Vulkan Triangle")
  let w : World := w.call (Request.xdg_toplevel_set_app_id w.toplevel "vulkan-triangle")
  let w : World := w.call (Request.wl_surface_commit w.surface)
  let w : World := dispatch I (w.call (Request.wl_display_roundtrip w.display)) L.roundtrip2
  let w : World := w.call (Request.wl_surface_commit w.surface)
  (1, w.printf (Printed.text "XDG shell initialization complete\n"))

/-- Lines 131 to 162. -/
def wayland_cleanup (w : World) : World :=
  let w : World := w.printf (Printed.text "Cleaning up Wayland...\n")
  let w : World := if w.toplevel ≠ 0 then
      { w.release (Request.xdg_toplevel_destroy w.toplevel) Kind.toplevel w.toplevel with
        toplevel := 0 }
    else w
  let w : World := if w.shell_surface ≠ 0 then
      { w.release (Request.xdg_surface_destroy w.shell_surface) Kind.shell_surface
          w.shell_surface with shell_surface := 0 }
    else w
  let w : World := if w.surface ≠ 0 then
      { w.release (Request.wl_surface_destroy w.surface) Kind.surface w.surface with
        surface := 0 }
    else w
  let w : World := if w.shell ≠ 0 then
      { w.release (Request.xdg_wm_base_destroy w.shell) Kind.shell w.shell with shell := 0 }
    else w
  let w : World := if w.compositor ≠ 0 then
      { w.release (Request.wl_compositor_destroy w.compositor) Kind.compositor w.compositor with
        compositor := 0 }
    else w
  let w : World := if w.registry ≠ 0 then
      { w.release (Request.wl_registry_destroy w.registry) Kind.registry w.registry with
        registry := 0 }
    else w
  let w : World := if w.display ≠ 0 then
      { w.release (Request.wl_display_disconnect w.display) Kind.display w.display with
        display := 0 }
    else w
  w

/-- Lines 164 to 166: the returned pointer and the (unchanged) state. -/
def get_wayland_display (w : World) : Ptr × World :=
  (w.display, w)

/-- Lines 168 to 170. -/
def get_wayland_surface (w : World) : Ptr × World :=
  (w.surface, w)

/-- Lines 172 to 174. -/
def wayland_should_quit (w : World) : Int × World :=
  (w.quit, w)

/-- Lines 176 to 181; `pending` and `roundtrip` are the events the library delivers during
`wl_display_dispatch_pending` and `wl_display_roundtrip`. -/
def wayland_poll_events (I : Interfaces) (pending roundtrip : List Event) (w : World) : World :=
  if w.display ≠ 0 then
    let w : World := dispatch I (w.call (Request.wl_display_dispatch_pending w.display)) pending
    let w : World := dispatch I (w.call (Request.wl_display_roundtrip w.display)) roundtrip
    w
  else w

/-! ## Runs of the public interface -/

/-- One call of the host application into the public interface, together with what the library
answers during that call. -/
inductive Op
  | wayland_init (L : InitScript)
  | wayland_poll_events (pending roundtrip : List Event)
  | wayland_cleanup
  | get_wayland_display
  | get_wayland_surface
  | wayland_should_quit
  deriving DecidableEq

/-- The state after one call. -/
def step (I : Interfaces) (w : World) (op : Op) : World :=
  match op with
  | Op.wayland_init L => (wayland_init I L w).2
  | Op.wayland_poll_events pending roundtrip => wayland_poll_events I pending roundtrip w
  | Op.wayland_cleanup => wayland_cleanup w
  | Op.get_wayland_display => (get_wayland_display w).2
  | Op.get_wayland_surface => (get_wayland_surface w).2
  | Op.wayland_should_quit => (wayland_should_quit w).2

/-- The state after a sequence of calls. -/
def run (I : Interfaces) (w : World) (ops : List Op) : World :=
  ops.foldl (step I) w

/-- All seven handles are `NULL`. -/
def World.allNull (w : World) : Prop :=
  w.display = 0 ∧ w.registry = 0 ∧ w.compositor = 0 ∧ w.shell = 0 ∧ w.surface = 0 ∧
    w.shell_surface = 0 ∧ w.toplevel = 0

instance (w : World) : Decidable w.allNull := by
  unfold World.allNull; infer_instance

/-- The release requests the claim on `wayland_cleanup` expects for state `w`: one per handle, in
the order toplevel, shell surface, surface, shell, compositor, registry, display, the ones for a
`NULL` handle left out. -/
def expected_releases (w : World) : List Request :=
  ([(w.toplevel, Request.xdg_toplevel_destroy w.toplevel),
    (w.shell_surface, Request.xdg_surface_destroy w.shell_surface),
    (w.surface, Request.wl_surface_destroy w.surface),
    (w.shell, Request.xdg_wm_base_destroy w.shell),
    (w.compositor, Request.wl_compositor_destroy w.compositor),
    (w.registry, Request.wl_registry_destroy w.registry),
    (w.display, Request.wl_display_disconnect w.display)].filter
      (fun hr => decide (hr.1 ≠ 0))).map Prod.snd

/-- The names of the two interfaces in the Wayland and xdg-shell protocols, used for the
concrete runs below. -/
def protocol : Interfaces :=
  { wl_compositor_name := "wl_compositor", xdg_wm_base_name := "xdg_wm_base" }

/-! ### Handles by kind -/

/-- The file-scope variable holding the object of kind `k`. -/
def World.handle (w : World) : Kind → Ptr
  | Kind.display => w.display
  | Kind.registry => w.registry
  | Kind.compositor => w.compositor
  | Kind.shell => w.shell
  | Kind.surface => w.surface
  | Kind.shell_surface => w.shell_surface
  | Kind.toplevel => w.toplevel

/-- Assignment to the file-scope variable of kind `k`. -/
def World.setHandle (w : World) (k : Kind) (p : Ptr) : World :=
  match k with
  | Kind.display => { w with display := p }
  | Kind.registry => { w with registry := p }
  | Kind.compositor => { w with compositor := p }
  | Kind.shell => { w with shell := p }
  | Kind.surface => { w with surface := p }
  | Kind.shell_surface => { w with shell_surface := p }
  | Kind.toplevel => { w with toplevel := p }

/-- The request that releases proxy `p` of kind `k`. -/
def Kind.destroy (k : Kind) (p : Ptr) : Request :=
  match k with
  | Kind.display => Request.wl_display_disconnect p
  | Kind.registry => Request.wl_registry_destroy p
  | Kind.compositor => Request.wl_compositor_destroy p
  | Kind.shell => Request.xdg_wm_base_destroy p
  | Kind.surface => Request.wl_surface_destroy p
  | Kind.shell_surface => Request.xdg_surface_destroy p
  | Kind.toplevel => Request.xdg_toplevel_destroy p

/-- One guarded block of `wayland_cleanup`: `if (x) { destroy(x); x = NULL; }`. -/
def World.drop (k : Kind) (w : World) : World :=
  if w.handle k ≠ 0 then (w.release (k.destroy (w.handle k)) k (w.handle k)).setHandle k 0
  else w

/-! ### The stages of `wayland_init` -/

/-- The state of `wayland_init` after line 74 (`display = wl_display_connect(NULL)`). -/
def init_connect (L : InitScript) (w : World) : World :=
  let w : World := w.printf (Printed.text "Initializing Wayland with XDG shell...\n")
  { w.call (Request.wl_display_connect L.connect) with display := L.connect }

/-- The state of `wayland_init` after line 81 (`registry = wl_display_get_registry(display)`). -/
def init_registry (L : InitScript) (w : World) : World :=
  let w : World := (init_connect L w).printf (Printed.text "Connected to Wayland display\n")
  { w.call (Request.wl_display_get_registry w.display L.get_registry) with
    registry := L.get_registry }

/-- The state of `wayland_init` after line 90 (the discovery dispatch and round-trip). -/
def init_discover (I : Interfaces) (L : InitScript) (w : World) : World :=
  let w : World := init_registry L w
  let w : World := w.attach (Request.wl_registry_add_listener w.registry) Kind.registry w.registry
  let w : World := dispatch I (w.call (Request.wl_display_dispatch w.display)) L.dispatch
  dispatch I (w.call (Request.wl_display_roundtrip w.display)) L.roundtrip

/-- The state of `wayland_init` after line 97 (`surface = wl_compositor_create_surface(..)`). -/
def init_surface (I : Interfaces) (L : InitScript) (w : World) : World :=
  let w : World := init_discover I L w
  { w.call (Request.wl_compositor_create_surface w.compositor L.create_surface) with
    surface := L.create_surface }

/-- The state of `wayland_init` after line 104 (`shell_surface = xdg_wm_base_get_xdg_surface`). -/
def init_shell_surface (I : Interfaces) (L : InitScript) (w : World) : World :=
  let w : World := (init_surface I L w).printf (Printed.text "Created surface\n")
  { w.call (Request.xdg_wm_base_get_xdg_surface w.shell w.surface L.get_xdg_surface) with
    shell_surface := L.get_xdg_surface }

/-- The state of `wayland_init` after line 112 (`toplevel = xdg_surface_get_toplevel(..)`). -/
def init_toplevel (I : Interfaces) (L : InitScript) (w : World) : World :=
  let w : World := init_shell_surface I L w
  let w : World := w.attach (Request.xdg_surface_add_listener w.shell_surface)
    Kind.shell_surface w.shell_surface
  { w.call (Request.xdg_surface_get_toplevel w.shell_surface L.get_toplevel) with
    toplevel := L.get_toplevel }

/-- The state of `wayland_init` after line 123 (listener, title, application id, first commit). -/
def init_commit (I : Interfaces) (L : InitScript) (w : World) : World :=
  let w : World := init_toplevel I L w
  let w : World := w.attach (Request.xdg_toplevel_add_listener w.toplevel) Kind.toplevel w.toplevel
  let w : World := w.call (Request.xdg_toplevel_set_title w.toplevel "Vulkan Triangle")
  let w : World := w.call (Request.xdg_toplevel_set_app_id w.toplevel "vulkan-triangle")
  w.call (Request.wl_surface_commit w.surface)

/-- The state of `wayland_init` at the `return 1` of line 128. -/
def init_complete (I : Interfaces) (L : InitScript) (w : World) : World :=
  let w : World := init_commit I L w
  let w : World := dispatch I (w.call (Request.wl_display_roundtrip w.display)) L.roundtrip2
  let w : World := w.call (Request.wl_surface_commit w.surface)
  w.printf (Printed.text "XDG shell initialization complete\n")

/-- The announcement `e` would be bound to a `NULL` proxy: `wl_registry_bind` fails for it. -/
def Event.nullBind : Event → Bool
  | Event.registry_global _ _ _ _ bound => decide (bound = 0)
  | _ => false

/-- The seven handles in creation order: connection, registry, compositor, shell, surface,
shell surface, toplevel. -/
def World.handles (w : World) : List Ptr :=
  [w.display, w.registry, w.compositor, w.shell, w.surface, w.shell_surface, w.toplevel]

/-- A library script in which every acquisition succeeds and the registry announces the
compositor and then the shell during the discovery dispatch. -/
def script_ok : InitScript :=
  { connect := 1, get_registry := 2,
    dispatch := [Event.registry_global 2 1 "wl_compositor" 4 3,
                 Event.registry_global 2 2 "xdg_wm_base" 2 4],
    roundtrip := [], create_surface := 5, get_xdg_surface := 6, get_toplevel := 7,
    roundtrip2 := [Event.shell_surface_configure 6 9] }

/-- As `script_ok`, but during the final round-trip the registry announces a second compositor
global and `wl_registry_bind` returns `NULL` for it. -/
def script_late_null_bind : InitScript :=
  { script_ok with roundtrip2 := [Event.registry_global 2 3 "wl_compositor" 4 0] }

/-- The call is a `wayland_init`. -/
def Op.isInit : Op → Bool
  | Op.wayland_init _ => true
  | _ => false

/-- Some announcement the library delivers during the call is bound to a `NULL` proxy. -/
def Op.nullBind : Op → Bool
  | Op.wayland_init L => (L.dispatch ++ L.roundtrip ++ L.roundtrip2).any Event.nullBind
  | Op.wayland_poll_events pending roundtrip => (pending ++ roundtrip).any Event.nullBind
  | _ => false

/-- The host calls `wayland_init` only while all seven handles are `NULL`: as the first call, or
after a `wayland_cleanup` with no other `wayland_init` in between. -/
def Disciplined (I : Interfaces) : World → List Op → Prop
  | _, [] => True
  | w, op :: ops => (op.isInit = true → w.allNull) ∧ Disciplined I (step I w op) ops

instance Disciplined.decidable (I : Interfaces) :
    (w : World) → (ops : List Op) → Decidable (Disciplined I w ops)
  | _, [] => isTrue trivial
  | w, op :: ops =>
    have : Decidable (Disciplined I (step I w op) ops) := Disciplined.decidable I (step I w op) ops
    inferInstanceAs (Decidable ((op.isInit = true → w.allNull) ∧ Disciplined I (step I w op) ops))

/-- The dependency chain of the data model, as the claim states it: an entity that exists implies
the entities it depends on exist. -/
def World.dependencies_hold (w : World) : Prop :=
  (w.toplevel ≠ 0 → w.shell_surface ≠ 0) ∧
  (w.shell_surface ≠ 0 → w.surface ≠ 0 ∧ w.shell ≠ 0) ∧
  (w.surface ≠ 0 → w.compositor ≠ 0) ∧
  (w.compositor ≠ 0 ∨ w.shell ≠ 0 → w.registry ≠ 0) ∧
  (w.registry ≠ 0 → w.display ≠ 0)

instance (w : World) : Decidable w.dependencies_hold := by
  unfold World.dependencies_hold; infer_instance

/-- The part of the dependency chain that does not rest on the two capability handles. -/
def World.chain (w : World) : Prop :=
  (w.toplevel ≠ 0 → w.shell_surface ≠ 0) ∧
  (w.shell_surface ≠ 0 → w.surface ≠ 0) ∧
  (w.surface ≠ 0 → w.registry ≠ 0) ∧
  (w.compositor ≠ 0 ∨ w.shell ≠ 0 → w.registry ≠ 0) ∧
  (w.registry ≠ 0 → w.display ≠ 0)

/-- Every registry listener the library holds is attached to the registry the session holds. -/
def World.registryListened (w : World) : Prop :=
  ∀ p, (Kind.registry, p) ∈ w.listeners → p = w.registry ∧ w.registry ≠ 0

/-- A surface exists only together with both capabilities. -/
def World.capsHeld (w : World) : Prop :=
  w.surface ≠ 0 → w.compositor ≠ 0 ∧ w.shell ≠ 0

/-- The entry records a run of the callback `toplevel_close`. -/
def Entry.isClose : Entry → Bool
  | Entry.event (Event.toplevel_close _) => true
  | _ => false

/-- The callback `toplevel_close` has run at least once in the trace. -/
def closeRan (t : List Entry) : Bool :=
  t.any Entry.isClose

/-- The quit flag is 1 when `toplevel_close` has run and 0 otherwise. -/
def World.quitTracksClose (w : World) : Prop :=
  w.quit = if closeRan w.trace then 1 else 0

/-- The session of a state: the seven handles, the quit flag and the attached listeners, that is
the state without the two logs (`trace`, `out`). -/
def World.session (w : World) : List Ptr × Int × List (Kind × Ptr) :=
  (w.handles, w.quit, w.listeners)

/-- The event is a registry announcement of the interface called `name`. -/
def Event.announces (name : String) : Event → Bool
  | Event.registry_global _ _ interface _ _ => decide (interface = name)
  | _ => false

/-- A library script in which the registry announces the compositor but never the shell. -/
def script_no_shell : InitScript :=
  { script_ok with dispatch := [Event.registry_global 2 1 "wl_compositor" 4 3] }

/-- Where a left-to-right scan of a trace segment stands with respect to pings: every ping seen
so far has its pong (`idle`), the entry just read is a ping whose pong is due next (`awaiting`),
or the segment has a ping without its pong at once after it, or a pong no ping asked for
(`violated`). -/
inductive PongState
  | idle
  | awaiting (shell : Ptr) (serial : Nat)
  | violated
  deriving DecidableEq

/-- One step of the scan. -/
def pongStep (st : PongState) (e : Entry) : PongState :=
  match st with
  | PongState.violated => PongState.violated
  | PongState.awaiting s n =>
      if e = Entry.call (Request.xdg_wm_base_pong s n) then PongState.idle
      else PongState.violated
  | PongState.idle =>
      match e with
      | Entry.event (Event.shell_ping s n) => PongState.awaiting s n
      | Entry.call (Request.xdg_wm_base_pong _ _) => PongState.violated
      | _ => PongState.idle

/-- In the trace segment every run of `shell_ping` is followed at once by the pong request for
the same shell object and token, and there is no other pong request. -/
def pingsAnswered (t : List Entry) : Bool :=
  decide (t.foldl pongStep PongState.idle = PongState.idle)

/-- The trace segment answers its pings: each run of `shell_ping` is followed at once by its
pong, and for every shell object and token there are as many pong requests as pings. -/
def Answered (u : List Entry) : Prop :=
  pingsAnswered u = true ∧
    ∀ s k, u.count (Entry.call (Request.xdg_wm_base_pong s k)) =
      u.count (Entry.event (Event.shell_ping s k))

/-! ### Counting instances -/

/-- The kind of object the library creates on this request: an acquisition creates an instance
when it returns a pointer that is not `NULL`. -/
def Request.creates : Request → Option Kind
  | Request.wl_display_connect ret => if ret = 0 then none else some Kind.display
  | Request.wl_display_get_registry _ ret => if ret = 0 then none else some Kind.registry
  | Request.wl_registry_bind _ _ Iface.wl_compositor _ ret =>
      if ret = 0 then none else some Kind.compositor
  | Request.wl_registry_bind _ _ Iface.xdg_wm_base _ ret =>
      if ret = 0 then none else some Kind.shell
  | Request.wl_compositor_create_surface _ ret => if ret = 0 then none else some Kind.surface
  | Request.xdg_wm_base_get_xdg_surface _ _ ret =>
      if ret = 0 then none else some Kind.shell_surface
  | Request.xdg_surface_get_toplevel _ ret => if ret = 0 then none else some Kind.toplevel
  | _ => none

/-- The kind of object the session releases with this request. -/
def Request.destroys : Request → Option Kind
  | Request.xdg_toplevel_destroy _ => some Kind.toplevel
  | Request.xdg_surface_destroy _ => some Kind.shell_surface
  | Request.wl_surface_destroy _ => some Kind.surface
  | Request.xdg_wm_base_destroy _ => some Kind.shell
  | Request.wl_compositor_destroy _ => some Kind.compositor
  | Request.wl_registry_destroy _ => some Kind.registry
  | Request.wl_display_disconnect _ => some Kind.display
  | _ => none

/-- The trace entry creates an instance of kind `k`. -/
def Entry.creates (k : Kind) : Entry → Bool
  | Entry.call r => decide (r.creates = some k)
  | Entry.event _ => false

/-- The trace entry releases an instance of kind `k`. -/
def Entry.destroys (k : Kind) : Entry → Bool
  | Entry.call r => decide (r.destroys = some k)
  | Entry.event _ => false

/-- Number of instances of kind `k` the library created along the trace. -/
def created (k : Kind) (t : List Entry) : Nat :=
  t.countP (Entry.creates k)

/-- Number of instances of kind `k` the session released along the trace. -/
def released (k : Kind) (t : List Entry) : Nat :=
  t.countP (Entry.destroys k)

/-- Number of instances of kind `k` created and not yet released. -/
def live (k : Kind) (t : List Entry) : Int :=
  (created k t : Int) - (released k t : Int)

/-- The capability handle an announcement makes `registry_global` bind, if any: the branch of
lines 51 and 54 the announced interface name selects. -/
def Event.capability (I : Interfaces) : Event → Option Kind
  | Event.registry_global _ _ interface _ _ =>
      if interface = I.wl_compositor_name then some Kind.compositor
      else if interface = I.xdg_wm_base_name then some Kind.shell
      else none
  | _ => none

/-- Number of announcements in the batch that make `registry_global` bind the handle of kind
`k`. -/
def announcements (I : Interfaces) (k : Kind) (events : List Event) : Nat :=
  events.countP (fun e => decide (e.capability I = some k))

/-- The registry announces each of the two capabilities at most once during a `wayland_init`
and none during a `wayland_poll_events`. -/
def Op.announcesOnce (I : Interfaces) : Op → Bool
  | Op.wayland_init L =>
      decide (announcements I Kind.compositor (L.dispatch ++ L.roundtrip ++ L.roundtrip2) ≤ 1) &&
      decide (announcements I Kind.shell (L.dispatch ++ L.roundtrip ++ L.roundtrip2) ≤ 1)
  | Op.wayland_poll_events pending roundtrip =>
      decide (announcements I Kind.compositor (pending ++ roundtrip) = 0) &&
      decide (announcements I Kind.shell (pending ++ roundtrip) = 0)
  | _ => true

/-- The handle of kind `k` accounts for the instances of kind `k`: there is one live instance
when the handle is not `NULL` and none when it is. -/
def World.balanced (k : Kind) (w : World) : Prop :=
  created k w.trace = released k w.trace + (if w.handle k = 0 then 0 else 1)

/-- A library script for a later call: fresh pointers for every acquisition, and a registry that
announces the compositor, bound to the proxy 23, and never the shell. -/
def script_again_no_shell : InitScript :=
  { connect := 21, get_registry := 22,
    dispatch := [Event.registry_global 22 1 "wl_compositor" 4 23],
    roundtrip := [], create_surface := 25, get_xdg_surface := 26, get_toplevel := 27,
    roundtrip2 := [] }

/-- As `script_ok`, but the registry announces two compositor globals during discovery. -/
def script_two_compositors : InitScript :=
  { script_ok with dispatch :=
      [Event.registry_global 2 1 "wl_compositor" 4 3,
       Event.registry_global 2 5 "wl_compositor" 4 8,
       Event.registry_global 2 2 "xdg_wm_base" 2 4] }

/-- The five handles no callback assigns. -/
def World.sameCore (v w : World) : Prop :=
  v.display = w.display ∧ v.registry = w.registry ∧ v.surface = w.surface ∧
    v.shell_surface = w.shell_surface ∧ v.toplevel = w.toplevel

/-! ## Theorems -/

/-! ### Projections of the elementary steps -/

@[simp] theorem call_display (w : World) (r : Request) :
    (w.call r).display = w.display := rfl

@[simp] theorem call_registry (w : World) (r : Request) :
    (w.call r).registry = w.registry := rfl

@[simp] theorem call_compositor (w : World) (r : Request) :
    (w.call r).compositor = w.compositor := rfl

@[simp] theorem call_surface (w : World) (r : Request) :
    (w.call r).surface = w.surface := rfl

@[simp] theorem call_shell (w : World) (r : Request) :
    (w.call r).shell = w.shell := rfl

@[simp] theorem call_shell_surface (w : World) (r : Request) :
    (w.call r).shell_surface = w.shell_surface := rfl

@[simp] theorem call_toplevel (w : World) (r : Request) :
    (w.call r).toplevel = w.toplevel := rfl

@[simp] theorem call_quit (w : World) (r : Request) :
    (w.call r).quit = w.quit := rfl

@[simp] theorem call_listeners (w : World) (r : Request) :
    (w.call r).listeners = w.listeners := rfl

@[simp] theorem call_trace (w : World) (r : Request) :
    (w.call r).trace = w.trace ++ [Entry.call r] := rfl

@[simp] theorem call_out (w : World) (r : Request) :
    (w.call r).out = w.out := rfl

@[simp] theorem fire_display (w : World) (e : Event) :
    (w.fire e).display = w.display := rfl

@[simp] theorem fire_registry (w : World) (e : Event) :
    (w.fire e).registry = w.registry := rfl

@[simp] theorem fire_compositor (w : World) (e : Event) :
    (w.fire e).compositor = w.compositor := rfl

@[simp] theorem fire_surface (w : World) (e : Event) :
    (w.fire e).surface = w.surface := rfl

@[simp] theorem fire_shell (w : World) (e : Event) :
    (w.fire e).shell = w.shell := rfl

@[simp] theorem fire_shell_surface (w : World) (e : Event) :
    (w.fire e).shell_surface = w.shell_surface := rfl

@[simp] theorem fire_toplevel (w : World) (e : Event) :
    (w.fire e).toplevel = w.toplevel := rfl

@[simp] theorem fire_quit (w : World) (e : Event) :
    (w.fire e).quit = w.quit := rfl

@[simp] theorem fire_listeners (w : World) (e : Event) :
    (w.fire e).listeners = w.listeners := rfl

@[simp] theorem fire_trace (w : World) (e : Event) :
    (w.fire e).trace = w.trace ++ [Entry.event e] := rfl

@[simp] theorem fire_out (w : World) (e : Event) :
    (w.fire e).out = w.out := rfl

@[simp] theorem printf_display (w : World) (p : Printed) :
    (w.printf p).display = w.display := rfl

@[simp] theorem printf_registry (w : World) (p : Printed) :
    (w.printf p).registry = w.registry := rfl

@[simp] theorem printf_compositor (w : World) (p : Printed) :
    (w.printf p).compositor = w.compositor := rfl

@[simp] theorem printf_surface (w : World) (p : Printed) :
    (w.printf p).surface = w.surface := rfl

@[simp] theorem printf_shell (w : World) (p : Printed) :
    (w.printf p).shell = w.shell := rfl

@[simp] theorem printf_shell_surface (w : World) (p : Printed) :
    (w.printf p).shell_surface = w.shell_surface := rfl

@[simp] theorem printf_toplevel (w : World) (p : Printed) :
    (w.printf p).toplevel = w.toplevel := rfl

@[simp] theorem printf_quit (w : World) (p : Printed) :
    (w.printf p).quit = w.quit := rfl

@[simp] theorem printf_listeners (w : World) (p : Printed) :
    (w.printf p).listeners = w.listeners := rfl

@[simp] theorem printf_trace (w : World) (p : Printed) :
    (w.printf p).trace = w.trace := rfl

@[simp] theorem printf_out (w : World) (p : Printed) :
    (w.printf p).out = w.out ++ [p] := rfl

@[simp] theorem attach_display (w : World) (r : Request) (k : Kind) (p : Ptr) :
    (w.attach r k p).display = w.display := rfl

@[simp] theorem attach_registry (w : World) (r : Request) (k : Kind) (p : Ptr) :
    (w.attach r k p).registry = w.registry := rfl

@[simp] theorem attach_compositor (w : World) (r : Request) (k : Kind) (p : Ptr) :
    (w.attach r k p).compositor = w.compositor := rfl

@[simp] theorem attach_surface (w : World) (r : Request) (k : Kind) (p : Ptr) :
    (w.attach r k p).surface = w.surface := rfl

@[simp] theorem attach_shell (w : World) (r : Request) (k : Kind) (p : Ptr) :
    (w.attach r k p).shell = w.shell := rfl

@[simp] theorem attach_shell_surface (w : World) (r : Request) (k : Kind) (p : Ptr) :
    (w.attach r k p).shell_surface = w.shell_surface := rfl

@[simp] theorem attach_toplevel (w : World) (r : Request) (k : Kind) (p : Ptr) :
    (w.attach r k p).toplevel = w.toplevel := rfl

@[simp] theorem attach_quit (w : World) (r : Request) (k : Kind) (p : Ptr) :
    (w.attach r k p).quit = w.quit := rfl

@[simp] theorem attach_listeners (w : World) (r : Request) (k : Kind) (p : Ptr) :
    (w.attach r k p).listeners = (k, p) :: w.listeners := rfl

@[simp] theorem attach_trace (w : World) (r : Request) (k : Kind) (p : Ptr) :
    (w.attach r k p).trace = w.trace ++ [Entry.call r] := rfl

@[simp] theorem attach_out (w : World) (r : Request) (k : Kind) (p : Ptr) :
    (w.attach r k p).out = w.out := rfl

@[simp] theorem release_display (w : World) (r : Request) (k : Kind) (p : Ptr) :
    (w.release r k p).display = w.display := rfl

@[simp] theorem release_registry (w : World) (r : Request) (k : Kind) (p : Ptr) :
    (w.release r k p).registry = w.registry := rfl

@[simp] theorem release_compositor (w : World) (r : Request) (k : Kind) (p : Ptr) :
    (w.release r k p).compositor = w.compositor := rfl

@[simp] theorem release_surface (w : World) (r : Request) (k : Kind) (p : Ptr) :
    (w.release r k p).surface = w.surface := rfl

@[simp] theorem release_shell (w : World) (r : Request) (k : Kind) (p : Ptr) :
    (w.release r k p).shell = w.shell := rfl

@[simp] theorem release_shell_surface (w : World) (r : Request) (k : Kind) (p : Ptr) :
    (w.release r k p).shell_surface = w.shell_surface := rfl

@[simp] theorem release_toplevel (w : World) (r : Request) (k : Kind) (p : Ptr) :
    (w.release r k p).toplevel = w.toplevel := rfl

@[simp] theorem release_quit (w : World) (r : Request) (k : Kind) (p : Ptr) :
    (w.release r k p).quit = w.quit := rfl

@[simp] theorem release_listeners (w : World) (r : Request) (k : Kind) (p : Ptr) :
    (w.release r k p).listeners = w.listeners.filter (fun l => decide (l ≠ (k, p))) := rfl

@[simp] theorem release_trace (w : World) (r : Request) (k : Kind) (p : Ptr) :
    (w.release r k p).trace = w.trace ++ [Entry.call r] := rfl

@[simp] theorem release_out (w : World) (r : Request) (k : Kind) (p : Ptr) :
    (w.release r k p).out = w.out := rfl

theorem wayland_init_eq_stages (I : Interfaces) (L : InitScript) (w : World) :
    wayland_init I L w =
      if (init_connect L w).display = 0 then
        (0, (init_connect L w).printf (Printed.text "Failed to connect to Wayland display\n"))
      else if (init_registry L w).registry = 0 then
        (0, (init_registry L w).printf (Printed.text "Failed to get registry\n"))
      else if (init_discover I L w).compositor = 0 ∨ (init_discover I L w).shell = 0 then
        (0, (init_discover I L w).printf
          (Printed.missing (init_discover I L w).compositor (init_discover I L w).shell))
      else if (init_surface I L w).surface = 0 then
        (0, (init_surface I L w).printf (Printed.text "Failed to create surface\n"))
      else if (init_shell_surface I L w).shell_surface = 0 then
        (0, (init_shell_surface I L w).printf (Printed.text "Failed to create shell surface\n"))
      else if (init_toplevel I L w).toplevel = 0 then
        (0, (init_toplevel I L w).printf (Printed.text "Failed to create toplevel\n"))
      else (1, init_complete I L w) :=
  rfl

theorem wayland_cleanup_eq_drops (w : World) :
    wayland_cleanup w =
      World.drop Kind.display (World.drop Kind.registry (World.drop Kind.compositor
        (World.drop Kind.shell (World.drop Kind.surface (World.drop Kind.shell_surface
          (World.drop Kind.toplevel (w.printf (Printed.text "Cleaning up Wayland...\n")))))))) :=
  rfl

@[simp] theorem printf_handle (w : World) (p : Printed) (k : Kind) :
    (w.printf p).handle k = w.handle k := by
  cases k <;> rfl

theorem drop_handle (k j : Kind) (w : World) :
    (World.drop k w).handle j = if j = k then 0 else w.handle j := by
  unfold World.drop
  by_cases h : w.handle k = 0
  · simp only [h, ne_eq, not_true_eq_false, if_false]
    split_ifs with hj
    · rw [hj, h]
    · rfl
  · simp only [h, ne_eq, not_false_eq_true, if_true]
    cases k <;> cases j <;> simp [World.setHandle, World.handle, World.release, World.call]

theorem drop_quit (k : Kind) (w : World) : (World.drop k w).quit = w.quit := by
  unfold World.drop
  split_ifs <;> cases k <;> rfl

theorem drop_out (k : Kind) (w : World) : (World.drop k w).out = w.out := by
  unfold World.drop
  split_ifs <;> cases k <;> rfl

theorem drop_trace (k : Kind) (w : World) :
    (World.drop k w).trace =
      w.trace ++ (if w.handle k ≠ 0 then [Entry.call (k.destroy (w.handle k))] else []) := by
  unfold World.drop
  split_ifs
  · cases k <;> rfl
  · simp

theorem drop_listeners (k : Kind) (w : World) :
    (World.drop k w).listeners =
      if w.handle k ≠ 0 then w.listeners.filter (fun l => decide (l ≠ (k, w.handle k)))
      else w.listeners := by
  unfold World.drop
  split_ifs
  · cases k <;> rfl
  · rfl

theorem drop_of_null (k : Kind) (w : World) (h : w.handle k = 0) : World.drop k w = w := by
  unfold World.drop
  simp [h]

theorem drop_display (k : Kind) (w : World) :
    (World.drop k w).display = if Kind.display = k then 0 else w.display :=
  drop_handle k Kind.display w

theorem drop_registry (k : Kind) (w : World) :
    (World.drop k w).registry = if Kind.registry = k then 0 else w.registry :=
  drop_handle k Kind.registry w

theorem drop_compositor (k : Kind) (w : World) :
    (World.drop k w).compositor = if Kind.compositor = k then 0 else w.compositor :=
  drop_handle k Kind.compositor w

theorem drop_shell (k : Kind) (w : World) :
    (World.drop k w).shell = if Kind.shell = k then 0 else w.shell :=
  drop_handle k Kind.shell w

theorem drop_surface (k : Kind) (w : World) :
    (World.drop k w).surface = if Kind.surface = k then 0 else w.surface :=
  drop_handle k Kind.surface w

theorem drop_shell_surface (k : Kind) (w : World) :
    (World.drop k w).shell_surface = if Kind.shell_surface = k then 0 else w.shell_surface :=
  drop_handle k Kind.shell_surface w

theorem drop_toplevel (k : Kind) (w : World) :
    (World.drop k w).toplevel = if Kind.toplevel = k then 0 else w.toplevel :=
  drop_handle k Kind.toplevel w

theorem expected_releases_eq (w : World) :
    expected_releases w =
      (if w.toplevel ≠ 0 then [Request.xdg_toplevel_destroy w.toplevel] else []) ++
      ((if w.shell_surface ≠ 0 then [Request.xdg_surface_destroy w.shell_surface] else []) ++
      ((if w.surface ≠ 0 then [Request.wl_surface_destroy w.surface] else []) ++
      ((if w.shell ≠ 0 then [Request.xdg_wm_base_destroy w.shell] else []) ++
      ((if w.compositor ≠ 0 then [Request.wl_compositor_destroy w.compositor] else []) ++
      ((if w.registry ≠ 0 then [Request.wl_registry_destroy w.registry] else []) ++
      (if w.display ≠ 0 then [Request.wl_display_disconnect w.display] else [])))))) := by
  unfold expected_releases
  by_cases h1 : w.toplevel = 0 <;> by_cases h2 : w.shell_surface = 0 <;>
  by_cases h3 : w.surface = 0 <;> by_cases h4 : w.shell = 0 <;>
  by_cases h5 : w.compositor = 0 <;> by_cases h6 : w.registry = 0 <;>
  by_cases h7 : w.display = 0 <;> simp [List.filter, h1, h2, h3, h4, h5, h6, h7]

theorem cleanup_handle (w : World) (k : Kind) : (wayland_cleanup w).handle k = 0 := by
  rw [wayland_cleanup_eq_drops]
  cases k <;>
    simp [World.handle, drop_display, drop_registry, drop_compositor, drop_shell, drop_surface,
      drop_shell_surface, drop_toplevel]

theorem cleanup_quit (w : World) : (wayland_cleanup w).quit = w.quit := by
  rw [wayland_cleanup_eq_drops]
  simp [drop_quit, World.printf]

theorem cleanup_out (w : World) :
    (wayland_cleanup w).out = w.out ++ [Printed.text "Cleaning up Wayland...\n"] := by
  rw [wayland_cleanup_eq_drops]
  simp [drop_out, World.printf]

theorem cleanup_trace (w : World) :
    (wayland_cleanup w).trace = w.trace ++ (expected_releases w).map Entry.call := by
  rw [wayland_cleanup_eq_drops, expected_releases_eq]
  simp only [drop_trace, World.handle, drop_display, drop_registry, drop_compositor, drop_shell,
    drop_surface, drop_shell_surface, drop_toplevel,
    reduceCtorEq, if_false, List.map_append, List.append_assoc]
  simp only [World.printf, Kind.destroy]
  congr 1
  by_cases h1 : w.toplevel = 0 <;> by_cases h2 : w.shell_surface = 0 <;>
  by_cases h3 : w.surface = 0 <;> by_cases h4 : w.shell = 0 <;>
  by_cases h5 : w.compositor = 0 <;> by_cases h6 : w.registry = 0 <;>
  by_cases h7 : w.display = 0 <;> simp [h1, h2, h3, h4, h5, h6, h7]

theorem cleanup_allNull (w : World) : (wayland_cleanup w).allNull := by
  have h := cleanup_handle w
  exact ⟨h Kind.display, h Kind.registry, h Kind.compositor, h Kind.shell, h Kind.surface,
    h Kind.shell_surface, h Kind.toplevel⟩

theorem cleanup_of_allNull (w : World) (h : w.allNull) :
    wayland_cleanup w = w.printf (Printed.text "Cleaning up Wayland...\n") := by
  obtain ⟨h1, h2, h3, h4, h5, h6, h7⟩ := h
  rw [wayland_cleanup_eq_drops]
  rw [drop_of_null Kind.toplevel (w.printf _) h7, drop_of_null Kind.shell_surface (w.printf _) h6,
    drop_of_null Kind.surface (w.printf _) h5, drop_of_null Kind.shell (w.printf _) h4,
    drop_of_null Kind.compositor (w.printf _) h3, drop_of_null Kind.registry (w.printf _) h2,
    drop_of_null Kind.display (w.printf _) h1]

/-! ### What a dispatch leaves alone -/

theorem registry_global_sameCore (I : Interfaces) (w : World) (r id : Nat) (i : String)
    (v b : Nat) : (registry_global I w r id i v b).sameCore w := by
  unfold registry_global
  split_ifs <;> exact ⟨rfl, rfl, rfl, rfl, rfl⟩

theorem deliver_sameCore (I : Interfaces) (w : World) (e : Event) :
    (deliver I w e).sameCore w := by
  unfold deliver
  cases e with
  | registry_global r id i v b =>
    dsimp only
    split_ifs
    · exact registry_global_sameCore I (w.fire _) r id i v b
    · exact ⟨rfl, rfl, rfl, rfl, rfl⟩
  | _ => dsimp only; split_ifs <;> exact ⟨rfl, rfl, rfl, rfl, rfl⟩

theorem dispatch_sameCore (I : Interfaces) (events : List Event) (w : World) :
    (dispatch I w events).sameCore w := by
  induction events generalizing w with
  | nil => exact ⟨rfl, rfl, rfl, rfl, rfl⟩
  | cons e es ih =>
    obtain ⟨h1, h2, h3, h4, h5⟩ := ih (deliver I w e)
    obtain ⟨g1, g2, g3, g4, g5⟩ := deliver_sameCore I w e
    exact ⟨h1.trans g1, h2.trans g2, h3.trans g3, h4.trans g4, h5.trans g5⟩

@[simp] theorem dispatch_display (I : Interfaces) (events : List Event) (w : World) :
    (dispatch I w events).display = w.display := (dispatch_sameCore I events w).1

@[simp] theorem dispatch_registry (I : Interfaces) (events : List Event) (w : World) :
    (dispatch I w events).registry = w.registry := (dispatch_sameCore I events w).2.1

@[simp] theorem dispatch_surface (I : Interfaces) (events : List Event) (w : World) :
    (dispatch I w events).surface = w.surface := (dispatch_sameCore I events w).2.2.1

@[simp] theorem dispatch_shell_surface (I : Interfaces) (events : List Event) (w : World) :
    (dispatch I w events).shell_surface = w.shell_surface :=
  (dispatch_sameCore I events w).2.2.2.1

@[simp] theorem dispatch_toplevel (I : Interfaces) (events : List Event) (w : World) :
    (dispatch I w events).toplevel = w.toplevel := (dispatch_sameCore I events w).2.2.2.2

@[simp] theorem dispatch_nil (I : Interfaces) (w : World) : dispatch I w [] = w := rfl

@[simp] theorem dispatch_cons (I : Interfaces) (w : World) (e : Event) (es : List Event) :
    dispatch I w (e :: es) = dispatch I (deliver I w e) es := rfl

theorem dispatch_append (I : Interfaces) (w : World) (es fs : List Event) :
    dispatch I w (es ++ fs) = dispatch I (dispatch I w es) fs := by
  simp [dispatch, List.foldl_append]

/-! ### The handles at each stage of `wayland_init` -/

@[simp] theorem init_connect_display (L : InitScript) (w : World) :
    (init_connect L w).display = L.connect := rfl

@[simp] theorem init_registry_display (L : InitScript) (w : World) :
    (init_registry L w).display = L.connect := rfl

@[simp] theorem init_registry_registry (L : InitScript) (w : World) :
    (init_registry L w).registry = L.get_registry := rfl

@[simp] theorem init_discover_display (I : Interfaces) (L : InitScript) (w : World) :
    (init_discover I L w).display = L.connect := by
  simp [init_discover, World.call, World.attach]

@[simp] theorem init_discover_registry (I : Interfaces) (L : InitScript) (w : World) :
    (init_discover I L w).registry = L.get_registry := by
  simp [init_discover, World.call, World.attach]

@[simp] theorem init_discover_surface (I : Interfaces) (L : InitScript) (w : World) :
    (init_discover I L w).surface = w.surface := by
  simp [init_discover, World.call, World.attach, init_registry, init_connect, World.printf]

@[simp] theorem init_discover_shell_surface (I : Interfaces) (L : InitScript) (w : World) :
    (init_discover I L w).shell_surface = w.shell_surface := by
  simp [init_discover, World.call, World.attach, init_registry, init_connect, World.printf]

@[simp] theorem init_discover_toplevel (I : Interfaces) (L : InitScript) (w : World) :
    (init_discover I L w).toplevel = w.toplevel := by
  simp [init_discover, World.call, World.attach, init_registry, init_connect, World.printf]

@[simp] theorem init_surface_surface (I : Interfaces) (L : InitScript) (w : World) :
    (init_surface I L w).surface = L.create_surface := rfl

@[simp] theorem init_shell_surface_shell_surface (I : Interfaces) (L : InitScript) (w : World) :
    (init_shell_surface I L w).shell_surface = L.get_xdg_surface := rfl

@[simp] theorem init_toplevel_toplevel (I : Interfaces) (L : InitScript) (w : World) :
    (init_toplevel I L w).toplevel = L.get_toplevel := rfl

theorem init_complete_core (I : Interfaces) (L : InitScript) (w : World) :
    (init_complete I L w).display = L.connect ∧
    (init_complete I L w).registry = L.get_registry ∧
    (init_complete I L w).surface = L.create_surface ∧
    (init_complete I L w).shell_surface = L.get_xdg_surface ∧
    (init_complete I L w).toplevel = L.get_toplevel := by
  simp [init_complete, init_commit, init_toplevel, init_shell_surface, init_surface,
    World.call, World.attach, World.printf]

/-! ### Capabilities across a dispatch -/

theorem deliver_caps_ne_zero (I : Interfaces) (w : World) (e : Event)
    (he : e.nullBind = false) :
    (w.compositor ≠ 0 → (deliver I w e).compositor ≠ 0) ∧
    (w.shell ≠ 0 → (deliver I w e).shell ≠ 0) := by
  unfold deliver
  cases e with
  | registry_global r n i v b =>
    have hb : b ≠ 0 := by simpa [Event.nullBind] using he
    dsimp only
    split_ifs
    · unfold registry_global
      split_ifs <;>
        simp [World.call, World.printf, World.attach, World.fire, hb]
    · exact ⟨id, id⟩
  | _ =>
    dsimp only
    split_ifs <;> exact ⟨id, id⟩

theorem dispatch_caps_ne_zero (I : Interfaces) (events : List Event) (w : World)
    (he : ∀ e ∈ events, e.nullBind = false) :
    (w.compositor ≠ 0 → (dispatch I w events).compositor ≠ 0) ∧
    (w.shell ≠ 0 → (dispatch I w events).shell ≠ 0) := by
  induction events generalizing w with
  | nil => exact ⟨id, id⟩
  | cons e es ih =>
    have h1 := deliver_caps_ne_zero I w e (he e (List.mem_cons_self _ _))
    have h2 := ih (deliver I w e) (fun x hx => he x (List.mem_cons_of_mem _ hx))
    exact ⟨fun h => h2.1 (h1.1 h), fun h => h2.2 (h1.2 h)⟩

theorem init_surface_caps (I : Interfaces) (L : InitScript) (w : World) :
    (init_surface I L w).compositor = (init_discover I L w).compositor ∧
    (init_surface I L w).shell = (init_discover I L w).shell := ⟨rfl, rfl⟩

theorem init_commit_core (I : Interfaces) (L : InitScript) (w : World) :
    (init_commit I L w).display = L.connect ∧
    (init_commit I L w).registry = L.get_registry ∧
    (init_commit I L w).surface = L.create_surface ∧
    (init_commit I L w).shell_surface = L.get_xdg_surface ∧
    (init_commit I L w).toplevel = L.get_toplevel := by
  simp [init_commit, init_toplevel, init_shell_surface, init_surface,
    World.call, World.attach, World.printf]

theorem init_commit_caps (I : Interfaces) (L : InitScript) (w : World) :
    (init_commit I L w).compositor = (init_discover I L w).compositor ∧
    (init_commit I L w).shell = (init_discover I L w).shell := by
  simp [init_commit, init_toplevel, init_shell_surface, init_surface,
    World.call, World.attach, World.printf]

theorem init_complete_eq (I : Interfaces) (L : InitScript) (w : World) :
    init_complete I L w =
      ((dispatch I ((init_commit I L w).call (Request.wl_display_roundtrip L.connect))
          L.roundtrip2).call (Request.wl_surface_commit L.create_surface)).printf
        (Printed.text "XDG shell initialization complete\n") := by
  obtain ⟨h1, _, h3, _, _⟩ := init_commit_core I L w
  unfold init_complete
  simp only [h1, dispatch_surface, call_surface, h3]

theorem init_complete_caps (I : Interfaces) (L : InitScript) (w : World)
    (he : ∀ e ∈ L.roundtrip2, e.nullBind = false) :
    ((init_discover I L w).compositor ≠ 0 → (init_complete I L w).compositor ≠ 0) ∧
    ((init_discover I L w).shell ≠ 0 → (init_complete I L w).shell ≠ 0) := by
  have h := dispatch_caps_ne_zero I L.roundtrip2
    ((init_commit I L w).call (Request.wl_display_roundtrip L.connect)) he
  obtain ⟨c1, c2⟩ := init_commit_caps I L w
  rw [init_complete_eq]
  simp only [call_compositor, call_shell, printf_compositor, printf_shell, c1, c2] at h ⊢
  exact h

/-! ### The outcome of `wayland_init` -/

theorem wayland_init_success (I : Interfaces) (L : InitScript) (w : World)
    (h : (wayland_init I L w).1 = 1) :
    L.connect ≠ 0 ∧ L.get_registry ≠ 0 ∧ (init_discover I L w).compositor ≠ 0 ∧
    (init_discover I L w).shell ≠ 0 ∧ L.create_surface ≠ 0 ∧ L.get_xdg_surface ≠ 0 ∧
    L.get_toplevel ≠ 0 ∧ (wayland_init I L w).2 = init_complete I L w := by
  rw [wayland_init_eq_stages] at h ⊢
  simp only [init_connect_display, init_registry_registry, init_surface_surface,
    init_shell_surface_shell_surface, init_toplevel_toplevel] at h ⊢
  split_ifs at h ⊢ with h1 h2 h3 h4 h5 h6
  · simp at h
  · simp at h
  · simp at h
  · simp at h
  · simp at h
  · simp at h
  · rw [not_or] at h3
    exact ⟨h1, h2, h3.1, h3.2, h4, h5, h6, rfl⟩

theorem wayland_init_of_success (I : Interfaces) (L : InitScript) (w : World)
    (h1 : L.connect ≠ 0) (h2 : L.get_registry ≠ 0) (h3 : (init_discover I L w).compositor ≠ 0)
    (h4 : (init_discover I L w).shell ≠ 0) (h5 : L.create_surface ≠ 0)
    (h6 : L.get_xdg_surface ≠ 0) (h7 : L.get_toplevel ≠ 0) :
    wayland_init I L w = (1, init_complete I L w) := by
  rw [wayland_init_eq_stages]
  simp only [init_connect_display, init_registry_registry, init_surface_surface,
    init_shell_surface_shell_surface, init_toplevel_toplevel]
  simp [h1, h2, h3, h4, h5, h6, h7]

theorem wayland_init_ret (I : Interfaces) (L : InitScript) (w : World) :
    (wayland_init I L w).1 = 0 ∨ (wayland_init I L w).1 = 1 := by
  rw [wayland_init_eq_stages]
  split_ifs <;> simp

/-! ### Runs that never call `wayland_init` -/

theorem poll_of_null_display (I : Interfaces) (p r : List Event) (w : World)
    (h : w.display = 0) : wayland_poll_events I p r w = w := by
  unfold wayland_poll_events
  simp [h]

theorem printf_allNull (w : World) (p : Printed) (h : w.allNull) : (w.printf p).allNull := h

theorem start_allNull : World.start.allNull := ⟨rfl, rfl, rfl, rfl, rfl, rfl, rfl⟩

theorem run_nil (I : Interfaces) (w : World) : run I w [] = w := rfl

theorem run_cons (I : Interfaces) (w : World) (op : Op) (ops : List Op) :
    run I w (op :: ops) = run I (step I w op) ops := rfl

theorem run_append (I : Interfaces) (w : World) (ops ops2 : List Op) :
    run I w (ops ++ ops2) = run I (run I w ops) ops2 := by
  simp [run, List.foldl_append]

theorem run_allNull_of_no_init (I : Interfaces) (ops : List Op) (w : World) (h : w.allNull)
    (hops : ∀ op ∈ ops, op.isInit = false) : (run I w ops).allNull := by
  induction ops generalizing w with
  | nil => exact h
  | cons op ops ih =>
    rw [run_cons]
    apply ih
    · cases op with
      | wayland_init L =>
        have hf := hops _ (List.mem_cons_self _ _)
        simp [Op.isInit] at hf
      | wayland_poll_events p r =>
        show (wayland_poll_events I p r w).allNull
        rw [poll_of_null_display I p r w h.1]
        exact h
      | wayland_cleanup => exact cleanup_allNull w
      | get_wayland_display => exact h
      | get_wayland_surface => exact h
      | wayland_should_quit => exact h
    · intro o ho
      exact hops o (List.mem_cons_of_mem _ ho)

/-! ### Claims on `wayland_cleanup` -/

/-- C1: in every state `wayland_cleanup` sends exactly the release requests of the handles that
are not `NULL`, each once and in the order toplevel, shell surface, surface, shell, compositor,
registry, display, leaves all seven handles `NULL` and the quit flag as it was; from the start
state it sends nothing and both accessors return `NULL` afterwards. -/
theorem wayland_cleanup_releases_held (w : World) :
    (wayland_cleanup w).trace = w.trace ++ (expected_releases w).map Entry.call ∧
    (wayland_cleanup w).allNull ∧
    (wayland_cleanup w).quit = w.quit ∧
    (wayland_cleanup World.start).trace = [] ∧
    (get_wayland_display (wayland_cleanup World.start)).1 = 0 ∧
    (get_wayland_surface (wayland_cleanup World.start)).1 = 0 :=
  ⟨cleanup_trace w, cleanup_allNull w, cleanup_quit w, by decide,
    (cleanup_allNull World.start).1, (cleanup_allNull World.start).2.2.2.2.1⟩

/-- C2: a second `wayland_cleanup` right after a first one only prints its progress line: it
sends no request, and the seven handles, the quit flag and the listener table stay exactly as
the first call left them. This holds in every state, hence in every reachable one. -/
theorem wayland_cleanup_idempotent (w : World) :
    wayland_cleanup (wayland_cleanup w) =
      (wayland_cleanup w).printf (Printed.text "Cleaning up Wayland...\n") ∧
    (wayland_cleanup (wayland_cleanup w)).trace = (wayland_cleanup w).trace ∧
    (∀ k, (wayland_cleanup (wayland_cleanup w)).handle k = (wayland_cleanup w).handle k) ∧
    (wayland_cleanup (wayland_cleanup w)).quit = (wayland_cleanup w).quit ∧
    (wayland_cleanup (wayland_cleanup w)).listeners = (wayland_cleanup w).listeners := by
  have h := cleanup_of_allNull (wayland_cleanup w) (cleanup_allNull w)
  refine ⟨h, ?_, ?_, ?_, ?_⟩
  · rw [h, printf_trace]
  · intro k; rw [h]; exact printf_handle _ _ k
  · rw [h, printf_quit]
  · rw [h, printf_listeners]

/-! ### Claims on the accessors -/

/-- C5: in every state reached from the start state without a `wayland_init` call both accessors
return `NULL`; right after a `wayland_init` that returns 1, `get_wayland_display` returns the
connection and `get_wayland_surface` the surface that call obtained, both not `NULL`; and no
accessor changes the state. -/
theorem accessors_null_before_init_nonnull_after (I : Interfaces) :
    (∀ ops : List Op, (∀ op ∈ ops, op.isInit = false) →
      (get_wayland_display (run I World.start ops)).1 = 0 ∧
      (get_wayland_surface (run I World.start ops)).1 = 0) ∧
    (∀ (L : InitScript) (w : World), (wayland_init I L w).1 = 1 →
      (get_wayland_display (wayland_init I L w).2).1 = L.connect ∧ L.connect ≠ 0 ∧
      (get_wayland_surface (wayland_init I L w).2).1 = L.create_surface ∧
      L.create_surface ≠ 0) ∧
    (∀ w : World, (get_wayland_display w).2 = w ∧ (get_wayland_surface w).2 = w) := by
  refine ⟨?_, ?_, fun w => ⟨rfl, rfl⟩⟩
  · intro ops hops
    have h := run_allNull_of_no_init I ops World.start start_allNull hops
    exact ⟨h.1, h.2.2.2.2.1⟩
  · intro L w h
    obtain ⟨h1, _, _, _, h4, _, _, he⟩ := wayland_init_success I L w h
    obtain ⟨c1, _, c3, _, _⟩ := init_complete_core I L w
    rw [he]
    exact ⟨c1, h1, c3, h4⟩

/-! ### Claims on `wayland_init` -/

theorem init_stage_traces (I : Interfaces) (L : InitScript) (w : World) :
    (init_connect L w).trace = w.trace ++ [Entry.call (Request.wl_display_connect L.connect)] ∧
    (init_registry L w).trace = w.trace ++
      [Entry.call (Request.wl_display_connect L.connect),
       Entry.call (Request.wl_display_get_registry L.connect L.get_registry)] ∧
    (init_surface I L w).trace = (init_discover I L w).trace ++
      [Entry.call (Request.wl_compositor_create_surface (init_discover I L w).compositor
        L.create_surface)] ∧
    (init_shell_surface I L w).trace = (init_discover I L w).trace ++
      [Entry.call (Request.wl_compositor_create_surface (init_discover I L w).compositor
        L.create_surface),
       Entry.call (Request.xdg_wm_base_get_xdg_surface (init_discover I L w).shell
        L.create_surface L.get_xdg_surface)] ∧
    (init_toplevel I L w).trace = (init_discover I L w).trace ++
      [Entry.call (Request.wl_compositor_create_surface (init_discover I L w).compositor
        L.create_surface),
       Entry.call (Request.xdg_wm_base_get_xdg_surface (init_discover I L w).shell
        L.create_surface L.get_xdg_surface),
       Entry.call (Request.xdg_surface_add_listener L.get_xdg_surface),
       Entry.call (Request.xdg_surface_get_toplevel L.get_xdg_surface L.get_toplevel)] := by
  refine ⟨?_, ?_, ?_, ?_, ?_⟩
  · simp [init_connect]
  · simp [init_registry, init_connect]
  · simp [init_surface]
  · simp [init_shell_surface, init_surface]
  · simp [init_toplevel, init_shell_surface, init_surface]

theorem init_stage_handles (I : Interfaces) (L : InitScript) (w : World) :
    ((init_connect L w).registry = w.registry ∧ (init_connect L w).compositor = w.compositor ∧
      (init_connect L w).shell = w.shell ∧ (init_connect L w).surface = w.surface ∧
      (init_connect L w).shell_surface = w.shell_surface ∧
      (init_connect L w).toplevel = w.toplevel) ∧
    ((init_registry L w).compositor = w.compositor ∧ (init_registry L w).shell = w.shell ∧
      (init_registry L w).surface = w.surface ∧
      (init_registry L w).shell_surface = w.shell_surface ∧
      (init_registry L w).toplevel = w.toplevel) ∧
    ((init_surface I L w).display = L.connect ∧ (init_surface I L w).registry = L.get_registry ∧
      (init_surface I L w).compositor = (init_discover I L w).compositor ∧
      (init_surface I L w).shell = (init_discover I L w).shell ∧
      (init_surface I L w).shell_surface = w.shell_surface ∧
      (init_surface I L w).toplevel = w.toplevel) ∧
    ((init_shell_surface I L w).display = L.connect ∧
      (init_shell_surface I L w).registry = L.get_registry ∧
      (init_shell_surface I L w).compositor = (init_discover I L w).compositor ∧
      (init_shell_surface I L w).shell = (init_discover I L w).shell ∧
      (init_shell_surface I L w).surface = L.create_surface ∧
      (init_shell_surface I L w).toplevel = w.toplevel) ∧
    ((init_toplevel I L w).display = L.connect ∧
      (init_toplevel I L w).registry = L.get_registry ∧
      (init_toplevel I L w).compositor = (init_discover I L w).compositor ∧
      (init_toplevel I L w).shell = (init_discover I L w).shell ∧
      (init_toplevel I L w).surface = L.create_surface ∧
      (init_toplevel I L w).shell_surface = L.get_xdg_surface) := by
  refine ⟨?_, ?_, ?_, ?_, ?_⟩
  · simp [init_connect]
  · simp [init_registry, init_connect]
  · simp [init_surface]
  · simp [init_shell_surface, init_surface]
  · simp [init_toplevel, init_shell_surface, init_surface]

/-- C4, the claim as stated fails: with `script_late_null_bind` every acquisition succeeds and
`wayland_init` returns 1, but the announcement delivered during the final round-trip of line 124
has overwritten `compositor` with `NULL`. -/
theorem wayland_init_success_with_null_compositor :
    (wayland_init protocol script_late_null_bind World.start).1 = 1 ∧
    (wayland_init protocol script_late_null_bind World.start).2.compositor = 0 := by
  decide

/-- C4, amended: when `wayland_init` returns 1 the connection, registry, surface, shell surface
and toplevel handles are not `NULL` at return, the compositor and shell handles were not `NULL`
at the check of line 92, and they are not `NULL` at return either when no announcement of the
final round-trip is bound to `NULL`. When a step fails (its result is `NULL`, or a capability is
missing at line 92) the call returns 0 with exactly the requests up to the failing one sent and
every handle as the earlier steps left it: nothing is released or nulled. In every case a
following `wayland_cleanup` leaves all seven handles `NULL`. -/
theorem wayland_init_success_or_first_failure (I : Interfaces) (L : InitScript) (w : World) :
    ((wayland_init I L w).1 = 1 →
      (wayland_init I L w).2.display ≠ 0 ∧ (wayland_init I L w).2.registry ≠ 0 ∧
      (wayland_init I L w).2.surface ≠ 0 ∧ (wayland_init I L w).2.shell_surface ≠ 0 ∧
      (wayland_init I L w).2.toplevel ≠ 0 ∧
      (init_discover I L w).compositor ≠ 0 ∧ (init_discover I L w).shell ≠ 0 ∧
      ((∀ e ∈ L.roundtrip2, e.nullBind = false) →
        (wayland_init I L w).2.compositor ≠ 0 ∧ (wayland_init I L w).2.shell ≠ 0)) ∧
    (L.connect = 0 →
      (wayland_init I L w).1 = 0 ∧
      (wayland_init I L w).2.trace =
        w.trace ++ [Entry.call (Request.wl_display_connect 0)] ∧
      (wayland_init I L w).2.handles =
        [0, w.registry, w.compositor, w.shell, w.surface, w.shell_surface, w.toplevel]) ∧
    (L.connect ≠ 0 → L.get_registry = 0 →
      (wayland_init I L w).1 = 0 ∧
      (wayland_init I L w).2.trace =
        w.trace ++ [Entry.call (Request.wl_display_connect L.connect),
          Entry.call (Request.wl_display_get_registry L.connect 0)] ∧
      (wayland_init I L w).2.handles =
        [L.connect, 0, w.compositor, w.shell, w.surface, w.shell_surface, w.toplevel]) ∧
    (L.connect ≠ 0 → L.get_registry ≠ 0 →
      ((init_discover I L w).compositor = 0 ∨ (init_discover I L w).shell = 0) →
      (wayland_init I L w).1 = 0 ∧
      (wayland_init I L w).2.trace = (init_discover I L w).trace ∧
      (wayland_init I L w).2.handles =
        [L.connect, L.get_registry, (init_discover I L w).compositor,
          (init_discover I L w).shell, w.surface, w.shell_surface, w.toplevel]) ∧
    (L.connect ≠ 0 → L.get_registry ≠ 0 → (init_discover I L w).compositor ≠ 0 →
      (init_discover I L w).shell ≠ 0 → L.create_surface = 0 →
      (wayland_init I L w).1 = 0 ∧
      (wayland_init I L w).2.trace = (init_discover I L w).trace ++
        [Entry.call (Request.wl_compositor_create_surface (init_discover I L w).compositor 0)] ∧
      (wayland_init I L w).2.handles =
        [L.connect, L.get_registry, (init_discover I L w).compositor,
          (init_discover I L w).shell, 0, w.shell_surface, w.toplevel]) ∧
    (L.connect ≠ 0 → L.get_registry ≠ 0 → (init_discover I L w).compositor ≠ 0 →
      (init_discover I L w).shell ≠ 0 → L.create_surface ≠ 0 → L.get_xdg_surface = 0 →
      (wayland_init I L w).1 = 0 ∧
      (wayland_init I L w).2.trace = (init_discover I L w).trace ++
        [Entry.call (Request.wl_compositor_create_surface (init_discover I L w).compositor
          L.create_surface),
         Entry.call (Request.xdg_wm_base_get_xdg_surface (init_discover I L w).shell
          L.create_surface 0)] ∧
      (wayland_init I L w).2.handles =
        [L.connect, L.get_registry, (init_discover I L w).compositor,
          (init_discover I L w).shell, L.create_surface, 0, w.toplevel]) ∧
    (L.connect ≠ 0 → L.get_registry ≠ 0 → (init_discover I L w).compositor ≠ 0 →
      (init_discover I L w).shell ≠ 0 → L.create_surface ≠ 0 → L.get_xdg_surface ≠ 0 →
      L.get_toplevel = 0 →
      (wayland_init I L w).1 = 0 ∧
      (wayland_init I L w).2.trace = (init_discover I L w).trace ++
        [Entry.call (Request.wl_compositor_create_surface (init_discover I L w).compositor
          L.create_surface),
         Entry.call (Request.xdg_wm_base_get_xdg_surface (init_discover I L w).shell
          L.create_surface L.get_xdg_surface),
         Entry.call (Request.xdg_surface_add_listener L.get_xdg_surface),
         Entry.call (Request.xdg_surface_get_toplevel L.get_xdg_surface 0)] ∧
      (wayland_init I L w).2.handles =
        [L.connect, L.get_registry, (init_discover I L w).compositor,
          (init_discover I L w).shell, L.create_surface, L.get_xdg_surface, 0]) ∧
    (L.connect ≠ 0 → L.get_registry ≠ 0 → (init_discover I L w).compositor ≠ 0 →
      (init_discover I L w).shell ≠ 0 → L.create_surface ≠ 0 → L.get_xdg_surface ≠ 0 →
      L.get_toplevel ≠ 0 → (wayland_init I L w).1 = 1) ∧
    (wayland_cleanup (wayland_init I L w).2).allNull := by
  obtain ⟨t1, t2, t3, t4, t5⟩ := init_stage_traces I L w
  obtain ⟨g1, g2, g3, g4, g5⟩ := init_stage_handles I L w
  refine ⟨?_, ?_, ?_, ?_, ?_, ?_, ?_, ?_, cleanup_allNull _⟩
  · intro h
    obtain ⟨h1, h2, h3, h4, h5, h6, h7, he⟩ := wayland_init_success I L w h
    obtain ⟨c1, c2, c3, c4, c5⟩ := init_complete_core I L w
    rw [he, c1, c2, c3, c4, c5]
    refine ⟨h1, h2, h5, h6, h7, h3, h4, fun hn => ?_⟩
    have hc := init_complete_caps I L w hn
    exact ⟨hc.1 h3, hc.2 h4⟩
  · intro h1
    rw [wayland_init_eq_stages]
    simp only [init_connect_display, h1, if_true, printf_trace, t1, World.handles,
      printf_display, printf_registry, printf_compositor, printf_shell, printf_surface,
      printf_shell_surface, printf_toplevel, g1, true_and]
  · intro h1 h2
    rw [wayland_init_eq_stages]
    simp only [init_connect_display, init_registry_registry, init_registry_display, h1, h2,
      if_true, if_false, printf_trace, t2, World.handles,
      printf_display, printf_registry, printf_compositor, printf_shell, printf_surface,
      printf_shell_surface, printf_toplevel, g2, true_and]
  · intro h1 h2 h3
    rw [wayland_init_eq_stages]
    simp only [init_connect_display, init_registry_registry, h1, h2, h3,
      if_true, if_false, printf_trace, World.handles,
      printf_display, printf_registry, printf_compositor, printf_shell, printf_surface,
      printf_shell_surface, printf_toplevel, init_discover_display, init_discover_registry,
      init_discover_surface, init_discover_shell_surface, init_discover_toplevel, true_and]
  · intro h1 h2 h3 h4 h5
    rw [wayland_init_eq_stages]
    simp only [init_connect_display, init_registry_registry, init_surface_surface, h1, h2, h3,
      h4, h5, or_self, if_true, if_false, printf_trace, t3, World.handles,
      printf_display, printf_registry, printf_compositor, printf_shell, printf_surface,
      printf_shell_surface, printf_toplevel, g3, true_and]
  · intro h1 h2 h3 h4 h5 h6
    rw [wayland_init_eq_stages]
    simp only [init_connect_display, init_registry_registry, init_surface_surface,
      init_shell_surface_shell_surface, h1, h2, h3,
      h4, h5, h6, or_self, if_true, if_false, printf_trace, t4, World.handles,
      printf_display, printf_registry, printf_compositor, printf_shell, printf_surface,
      printf_shell_surface, printf_toplevel, g4, true_and]
  · intro h1 h2 h3 h4 h5 h6 h7
    rw [wayland_init_eq_stages]
    simp only [init_connect_display, init_registry_registry, init_surface_surface,
      init_shell_surface_shell_surface, init_toplevel_toplevel, h1, h2, h3,
      h4, h5, h6, h7, or_self, if_true, if_false, printf_trace, t5, World.handles,
      printf_display, printf_registry, printf_compositor, printf_shell, printf_surface,
      printf_shell_surface, printf_toplevel, g5, true_and]
  · intro h1 h2 h3 h4 h5 h6 h7
    rw [wayland_init_of_success I L w h1 h2 h3 h4 h5 h6 h7]

/-! ### Listeners and capabilities across a dispatch -/

theorem registry_global_listeners (I : Interfaces) (w : World) (r n : Nat) (i : String)
    (v b : Nat) (k : Kind) (p : Ptr) (hk : k ≠ Kind.shell) :
    (k, p) ∈ (registry_global I w r n i v b).listeners ↔ (k, p) ∈ w.listeners := by
  unfold registry_global
  split_ifs
  · simp
  · simp only [printf_listeners, attach_listeners, List.mem_cons, Prod.mk.injEq]
    constructor
    · rintro (⟨h, _⟩ | h)
      · exact absurd h hk
      · exact h
    · exact fun h => Or.inr h
  · rfl

theorem deliver_listeners (I : Interfaces) (w : World) (e : Event) (k : Kind) (p : Ptr)
    (hk : k ≠ Kind.shell) :
    (k, p) ∈ (deliver I w e).listeners ↔ (k, p) ∈ w.listeners := by
  unfold deliver
  cases e with
  | registry_global r n i v b =>
    dsimp only
    split_ifs
    · rw [registry_global_listeners I _ r n i v b k p hk]; rfl
    · rfl
  | _ => dsimp only; split_ifs <;> rfl

theorem dispatch_listeners (I : Interfaces) (events : List Event) (w : World) (k : Kind)
    (p : Ptr) (hk : k ≠ Kind.shell) :
    (k, p) ∈ (dispatch I w events).listeners ↔ (k, p) ∈ w.listeners := by
  induction events generalizing w with
  | nil => rfl
  | cons e es ih => rw [dispatch_cons, ih, deliver_listeners I w e k p hk]

theorem deliver_caps_of_unlistened (I : Interfaces) (w : World) (e : Event)
    (h : ∀ r, (Kind.registry, r) ∉ w.listeners) :
    (deliver I w e).compositor = w.compositor ∧ (deliver I w e).shell = w.shell := by
  unfold deliver
  cases e with
  | registry_global r n i v b =>
    dsimp only
    rw [if_neg (h r)]
    exact ⟨rfl, rfl⟩
  | _ => dsimp only; split_ifs <;> exact ⟨rfl, rfl⟩

theorem deliver_chain (I : Interfaces) (w : World) (e : Event)
    (hc : w.chain) (hl : w.registryListened) :
    (deliver I w e).chain ∧ (deliver I w e).registryListened := by
  obtain ⟨s1, s2, s3, s4, s5⟩ := deliver_sameCore I w e
  obtain ⟨c1, c2, c3, c4, c5⟩ := hc
  constructor
  · refine ⟨?_, ?_, ?_, ?_, ?_⟩
    · rw [s5, s4]; exact c1
    · rw [s4, s3]; exact c2
    · rw [s3, s2]; exact c3
    · rw [s2]
      intro h
      by_cases hr : w.registry = 0
      · have hn : ∀ r, (Kind.registry, r) ∉ w.listeners := fun r hm => (hl r hm).2 hr
        obtain ⟨e1, e2⟩ := deliver_caps_of_unlistened I w e hn
        rw [e1, e2] at h
        exact c4 h
      · exact hr
    · rw [s2, s1]; exact c5
  · intro p hp
    rw [deliver_listeners I w e Kind.registry p (by decide)] at hp
    rw [s2]
    exact hl p hp

theorem dispatch_chain (I : Interfaces) (events : List Event) (w : World)
    (hc : w.chain) (hl : w.registryListened) :
    (dispatch I w events).chain ∧ (dispatch I w events).registryListened := by
  induction events generalizing w with
  | nil => exact ⟨hc, hl⟩
  | cons e es ih =>
    obtain ⟨h1, h2⟩ := deliver_chain I w e hc hl
    exact ih (deliver I w e) h1 h2

theorem dispatch_capsHeld (I : Interfaces) (events : List Event) (w : World)
    (he : ∀ e ∈ events, e.nullBind = false) (h : w.capsHeld) :
    (dispatch I w events).capsHeld := by
  intro hs
  rw [dispatch_surface] at hs
  obtain ⟨h1, h2⟩ := h hs
  obtain ⟨d1, d2⟩ := dispatch_caps_ne_zero I events w he
  exact ⟨d1 h1, d2 h2⟩

theorem call_chain (w : World) (r : Request) (hc : w.chain) (hl : w.registryListened) :
    (w.call r).chain ∧ (w.call r).registryListened := ⟨hc, hl⟩

theorem poll_chain (I : Interfaces) (p r : List Event) (w : World)
    (hc : w.chain) (hl : w.registryListened) :
    (wayland_poll_events I p r w).chain ∧ (wayland_poll_events I p r w).registryListened := by
  unfold wayland_poll_events
  split_ifs
  · obtain ⟨h1, h2⟩ := dispatch_chain I p (w.call _) hc hl
    exact dispatch_chain I r (World.call _ _) h1 h2
  · exact ⟨hc, hl⟩

theorem poll_capsHeld (I : Interfaces) (p r : List Event) (w : World)
    (he : ∀ e ∈ p ++ r, e.nullBind = false) (h : w.capsHeld) :
    (wayland_poll_events I p r w).capsHeld := by
  unfold wayland_poll_events
  split_ifs
  · apply dispatch_capsHeld I r _ (fun e hm => he e (List.mem_append_right _ hm))
    have h1 := dispatch_capsHeld I p (w.call (Request.wl_display_dispatch_pending w.display))
      (fun e hm => he e (List.mem_append_left _ hm)) h
    exact h1
  · exact h

/-! ### Listeners across `wayland_cleanup` -/

theorem mem_drop_listeners (k : Kind) (w : World) (l : Kind × Ptr) :
    l ∈ (World.drop k w).listeners ↔
      l ∈ w.listeners ∧ (w.handle k ≠ 0 → l ≠ (k, w.handle k)) := by
  rw [drop_listeners]
  split_ifs with h
  · simp [h]
  · simp [h]

theorem mem_cleanup_listeners (w : World) (l : Kind × Ptr)
    (h : l ∈ (wayland_cleanup w).listeners) :
    l ∈ w.listeners ∧ ∀ k, w.handle k ≠ 0 → l ≠ (k, w.handle k) := by
  rw [wayland_cleanup_eq_drops] at h
  simp only [mem_drop_listeners, World.handle, drop_display, drop_registry, drop_compositor,
    drop_shell, drop_surface, drop_shell_surface, drop_toplevel, reduceCtorEq, if_false,
    printf_listeners, printf_display, printf_registry, printf_compositor, printf_shell,
    printf_surface, printf_shell_surface, printf_toplevel] at h
  obtain ⟨⟨⟨⟨⟨⟨⟨h0, h1⟩, h2⟩, h3⟩, h4⟩, h5⟩, h6⟩, h7⟩ := h
  refine ⟨h0, fun k => ?_⟩
  cases k
  · exact h7
  · exact h6
  · exact h5
  · exact h4
  · exact h3
  · exact h2
  · exact h1

theorem cleanup_chain (w : World) (hl : w.registryListened) :
    (wayland_cleanup w).chain ∧ (wayland_cleanup w).registryListened ∧
    (wayland_cleanup w).capsHeld ∧ (wayland_cleanup w).dependencies_hold := by
  obtain ⟨n1, n2, n3, n4, n5, n6, n7⟩ := cleanup_allNull w
  refine ⟨?_, ?_, ?_, ?_⟩
  · exact ⟨fun h => absurd n7 h, fun h => absurd n6 h, fun h => absurd n5 h,
      fun h => h.elim (fun h => absurd n3 h) (fun h => absurd n4 h), fun h => absurd n2 h⟩
  · intro p hp
    obtain ⟨hm, hk⟩ := mem_cleanup_listeners w _ hp
    obtain ⟨e1, e2⟩ := hl p hm
    exact absurd (by rw [e1]; rfl) (hk Kind.registry e2)
  · exact fun h => absurd n5 h
  · exact ⟨fun h => absurd n7 h, fun h => absurd n6 h, fun h => absurd n5 h,
      fun h => h.elim (fun h => absurd n3 h) (fun h => absurd n4 h), fun h => absurd n2 h⟩

/-! ### The dependency chain across `wayland_init` -/

theorem init_discover_chain (I : Interfaces) (L : InitScript) (w : World)
    (hn : w.allNull) (hl : w.registryListened) (h1 : L.connect ≠ 0) (h2 : L.get_registry ≠ 0) :
    (init_discover I L w).chain ∧ (init_discover I L w).registryListened := by
  obtain ⟨n1, n2, n3, n4, n5, n6, n7⟩ := hn
  have hno : ∀ p, (Kind.registry, p) ∉ w.listeners := fun p hp => (hl p hp).2 n2
  unfold init_discover
  simp only [init_registry_registry, init_registry_display, dispatch_display, call_display,
    attach_display]
  apply dispatch_chain
  · apply (call_chain _ _ _ _).1
    · apply (dispatch_chain _ _ _ _ _).1
      · simp [World.chain, init_registry, init_connect, h1, h2, n5, n6, n7]
      · intro p hp
        simp [init_registry, init_connect, hno] at hp
        simp [hp, h2]
    · apply (dispatch_chain _ _ _ _ _).2
      · simp [World.chain, init_registry, init_connect, h1, h2, n5, n6, n7]
      · intro p hp
        simp [init_registry, init_connect, hno] at hp
        simp [hp, h2]
  · apply (call_chain _ _ _ _).2
    · apply (dispatch_chain _ _ _ _ _).1
      · simp [World.chain, init_registry, init_connect, h1, h2, n5, n6, n7]
      · intro p hp
        simp [init_registry, init_connect, hno] at hp
        simp [hp, h2]
    · apply (dispatch_chain _ _ _ _ _).2
      · simp [World.chain, init_registry, init_connect, h1, h2, n5, n6, n7]
      · intro p hp
        simp [init_registry, init_connect, hno] at hp
        simp [hp, h2]

theorem init_stage_registry_listeners (I : Interfaces) (L : InitScript) (w : World) (p : Ptr) :
    ((Kind.registry, p) ∈ (init_surface I L w).listeners ↔
      (Kind.registry, p) ∈ (init_discover I L w).listeners) ∧
    ((Kind.registry, p) ∈ (init_shell_surface I L w).listeners ↔
      (Kind.registry, p) ∈ (init_discover I L w).listeners) ∧
    ((Kind.registry, p) ∈ (init_toplevel I L w).listeners ↔
      (Kind.registry, p) ∈ (init_discover I L w).listeners) ∧
    ((Kind.registry, p) ∈ (init_complete I L w).listeners ↔
      (Kind.registry, p) ∈ (init_discover I L w).listeners) := by
  refine ⟨?_, ?_, ?_, ?_⟩
  · simp [init_surface]
  · simp [init_shell_surface, init_surface]
  · simp [init_toplevel, init_shell_surface, init_surface]
  · rw [init_complete_eq]
    simp only [printf_listeners, call_listeners]
    rw [dispatch_listeners I _ _ Kind.registry p (by decide)]
    simp [init_commit, init_toplevel, init_shell_surface, init_surface]

theorem wayland_init_chain (I : Interfaces) (L : InitScript) (w : World)
    (hn : w.allNull) (hl : w.registryListened) :
    (wayland_init I L w).2.chain ∧ (wayland_init I L w).2.registryListened := by
  obtain ⟨g1, g2, g3, g4, g5⟩ := init_stage_handles I L w
  have hn2 := hn
  obtain ⟨n1, n2, n3, n4, n5, n6, n7⟩ := hn2
  have hno : ∀ p, (Kind.registry, p) ∉ w.listeners := fun p hp => (hl p hp).2 n2
  rw [wayland_init_eq_stages]
  simp only [init_connect_display, init_registry_registry, init_surface_surface,
    init_shell_surface_shell_surface, init_toplevel_toplevel]
  split_ifs with h1 h2 h3 h4 h5 h6
  · constructor
    · simp [World.chain, init_connect, h1, n2, n3, n4, n5, n6, n7]
    · intro p hp
      simp [init_connect, hno] at hp
  · constructor
    · simp [World.chain, init_registry, init_connect, h1, h2, n3, n4, n5, n6, n7]
    · intro p hp
      simp [init_registry, init_connect, hno] at hp
  · exact init_discover_chain I L w hn hl h1 h2
  · obtain ⟨d1, d2⟩ := init_discover_chain I L w hn hl h1 h2
    constructor
    · simp [World.chain, g3, h1, h2, h4, n6, n7]
    · intro p hp
      simp only [printf_listeners, printf_registry, g3] at hp ⊢
      rw [(init_stage_registry_listeners I L w p).1] at hp
      simpa using d2 p hp
  · obtain ⟨d1, d2⟩ := init_discover_chain I L w hn hl h1 h2
    constructor
    · simp [World.chain, g4, h1, h2, h4, h5, n7]
    · intro p hp
      simp only [printf_listeners, printf_registry, g4] at hp ⊢
      rw [(init_stage_registry_listeners I L w p).2.1] at hp
      simpa using d2 p hp
  · obtain ⟨d1, d2⟩ := init_discover_chain I L w hn hl h1 h2
    constructor
    · simp [World.chain, g5, h1, h2, h4, h5, h6]
    · intro p hp
      simp only [printf_listeners, printf_registry, g5] at hp ⊢
      rw [(init_stage_registry_listeners I L w p).2.2.1] at hp
      simpa using d2 p hp
  · obtain ⟨d1, d2⟩ := init_discover_chain I L w hn hl h1 h2
    obtain ⟨c1, c2, c3, c4, c5⟩ := init_complete_core I L w
    constructor
    · simp [World.chain, c1, c2, c3, c4, c5, h1, h2, h4, h5, h6]
    · intro p hp
      rw [(init_stage_registry_listeners I L w p).2.2.2] at hp
      rw [c2]
      simpa using d2 p hp

theorem wayland_init_capsHeld (I : Interfaces) (L : InitScript) (w : World)
    (hn : w.allNull) (he : ∀ e ∈ L.roundtrip2, e.nullBind = false) :
    (wayland_init I L w).2.capsHeld := by
  obtain ⟨g1, g2, g3, g4, g5⟩ := init_stage_handles I L w
  obtain ⟨n1, n2, n3, n4, n5, n6, n7⟩ := hn
  rw [wayland_init_eq_stages]
  simp only [init_connect_display, init_registry_registry, init_surface_surface,
    init_shell_surface_shell_surface, init_toplevel_toplevel]
  split_ifs with h1 h2 h3 h4 h5 h6
  · simp [World.capsHeld, g1, n5]
  · simp [World.capsHeld, g2, n5]
  · simp [World.capsHeld, n5]
  · simp [World.capsHeld, h4]
  · rw [not_or] at h3
    simp [World.capsHeld, g4, h3]
  · rw [not_or] at h3
    simp [World.capsHeld, g5, h3]
  · rw [not_or] at h3
    intro _
    have hc := init_complete_caps I L w he
    exact ⟨hc.1 h3.1, hc.2 h3.2⟩

/-! ### The dependency chain along disciplined runs -/

theorem step_chain (I : Interfaces) (w : World) (op : Op) (hi : op.isInit = true → w.allNull)
    (hc : w.chain) (hl : w.registryListened) :
    (step I w op).chain ∧ (step I w op).registryListened := by
  cases op with
  | wayland_init L => exact wayland_init_chain I L w (hi rfl) hl
  | wayland_poll_events p r => exact poll_chain I p r w hc hl
  | wayland_cleanup => exact ⟨(cleanup_chain w hl).1, (cleanup_chain w hl).2.1⟩
  | get_wayland_display => exact ⟨hc, hl⟩
  | get_wayland_surface => exact ⟨hc, hl⟩
  | wayland_should_quit => exact ⟨hc, hl⟩

theorem step_capsHeld (I : Interfaces) (w : World) (op : Op) (hi : op.isInit = true → w.allNull)
    (hb : op.nullBind = false) (hl : w.registryListened) (h : w.capsHeld) :
    (step I w op).capsHeld := by
  cases op with
  | wayland_init L =>
    apply wayland_init_capsHeld I L w (hi rfl)
    intro e he
    simp only [Op.nullBind, List.any_eq_false] at hb
    simpa using hb e (by simp [he])
  | wayland_poll_events p r =>
    apply poll_capsHeld I p r w _ h
    intro e he
    simp only [Op.nullBind, List.any_eq_false] at hb
    simpa using hb e he
  | wayland_cleanup => exact (cleanup_chain w hl).2.2.1
  | get_wayland_display => exact h
  | get_wayland_surface => exact h
  | wayland_should_quit => exact h

theorem run_chain (I : Interfaces) (ops : List Op) (w : World) (hd : Disciplined I w ops)
    (hc : w.chain) (hl : w.registryListened) :
    (run I w ops).chain ∧ (run I w ops).registryListened := by
  induction ops generalizing w with
  | nil => exact ⟨hc, hl⟩
  | cons op ops ih =>
    obtain ⟨h1, h2⟩ := step_chain I w op hd.1 hc hl
    exact ih (step I w op) hd.2 h1 h2

theorem run_capsHeld (I : Interfaces) (ops : List Op) (w : World) (hd : Disciplined I w ops)
    (hb : ∀ op ∈ ops, op.nullBind = false) (hc : w.chain) (hl : w.registryListened)
    (h : w.capsHeld) : (run I w ops).capsHeld := by
  induction ops generalizing w with
  | nil => exact h
  | cons op ops ih =>
    obtain ⟨h1, h2⟩ := step_chain I w op hd.1 hc hl
    have h3 := step_capsHeld I w op hd.1 (hb op (List.mem_cons_self _ _)) hl h
    exact ih (step I w op) hd.2 (fun o ho => hb o (List.mem_cons_of_mem _ ho)) h1 h2 h3

theorem start_chain : World.start.chain ∧ World.start.registryListened ∧ World.start.capsHeld := by
  refine ⟨?_, ?_, ?_⟩
  · simp [World.chain, World.start]
  · intro p hp
    simp [World.start] at hp
  · simp [World.capsHeld, World.start]

/-- C3, the claim as stated fails. A second `wayland_init` without a `wayland_cleanup` in between
whose `wl_display_connect` fails overwrites `display` with `NULL` while the registry of the first
call is still held; and in a single `wayland_init` an announcement of the final round-trip bound
to `NULL` leaves a surface without its compositor. -/
theorem dependencies_broken_by_reinit_and_by_null_bind :
    ¬ (run protocol World.start
        [Op.wayland_init script_ok,
         Op.wayland_init { script_ok with connect := 0 }]).dependencies_hold ∧
    ¬ (run protocol World.start [Op.wayland_init script_late_null_bind]).dependencies_hold := by
  decide

/-- C3, amended: along every run from the start state in which `wayland_init` is only called
while all seven handles are `NULL`, toplevel implies shell surface, shell surface implies
surface, surface implies registry, compositor or shell implies registry, and registry implies
connection; when moreover no announcement is bound to `NULL`, the whole chain of the claim holds,
with shell surface implying shell and surface implying compositor. -/
theorem dependencies_hold_along_disciplined_runs (I : Interfaces) (ops : List Op)
    (hd : Disciplined I World.start ops) :
    ((run I World.start ops).toplevel ≠ 0 → (run I World.start ops).shell_surface ≠ 0) ∧
    ((run I World.start ops).shell_surface ≠ 0 → (run I World.start ops).surface ≠ 0) ∧
    ((run I World.start ops).surface ≠ 0 → (run I World.start ops).registry ≠ 0) ∧
    ((run I World.start ops).compositor ≠ 0 ∨ (run I World.start ops).shell ≠ 0 →
      (run I World.start ops).registry ≠ 0) ∧
    ((run I World.start ops).registry ≠ 0 → (run I World.start ops).display ≠ 0) ∧
    ((∀ op ∈ ops, op.nullBind = false) → (run I World.start ops).dependencies_hold) := by
  obtain ⟨s1, s2, s3⟩ := start_chain
  obtain ⟨⟨c1, c2, c3, c4, c5⟩, _⟩ := run_chain I ops World.start hd s1 s2
  refine ⟨c1, c2, c3, c4, c5, fun hb => ?_⟩
  have hh := run_capsHeld I ops World.start hd hb s1 s2 s3
  exact ⟨c1, fun h => ⟨c2 h, (hh (c2 h)).2⟩, fun h => (hh h).1, c4, c5⟩

/-- C3, the amended claim at a concrete run: a successful `wayland_init`, a poll that delivers a
ping and a close, then `wayland_cleanup` and a second `wayland_init`. -/
theorem dependencies_hold_along_disciplined_runs_witness :
    Disciplined protocol World.start
      [Op.wayland_init script_ok,
       Op.wayland_poll_events [Event.shell_ping 4 11] [Event.toplevel_close 7],
       Op.wayland_cleanup, Op.wayland_init script_ok] ∧
    (run protocol World.start
      [Op.wayland_init script_ok,
       Op.wayland_poll_events [Event.shell_ping 4 11] [Event.toplevel_close 7],
       Op.wayland_cleanup, Op.wayland_init script_ok]).dependencies_hold :=
  ⟨by decide,
   (dependencies_hold_along_disciplined_runs protocol _ (by decide)).2.2.2.2.2 (by decide)⟩

/-- C4, the amended claim at concrete scripts: `script_ok` from the start state returns 1 with
toplevel and shell held, and the same script with a failing `wl_display_connect` returns 0 after
that single request. -/
theorem wayland_init_success_or_first_failure_witness :
    ((wayland_init protocol script_ok World.start).1 = 1 ∧
      (wayland_init protocol script_ok World.start).2.toplevel ≠ 0 ∧
      (wayland_init protocol script_ok World.start).2.shell ≠ 0) ∧
    ((wayland_init protocol { script_ok with connect := 0 } World.start).1 = 0 ∧
      (wayland_init protocol { script_ok with connect := 0 } World.start).2.trace =
        [Entry.call (Request.wl_display_connect 0)]) :=
  have hs := (wayland_init_success_or_first_failure protocol script_ok World.start).1 (by decide)
  have hf := (wayland_init_success_or_first_failure protocol { script_ok with connect := 0 }
    World.start).2.1 rfl
  ⟨⟨by decide, hs.2.2.2.2.1, (hs.2.2.2.2.2.2.2 (by decide)).2⟩, hf.1, hf.2.1⟩

/-- C5, the claim at concrete inputs: after a poll and a cleanup from the start state both
accessors return `NULL`, and after `script_ok` they return the connection 1 and the surface 5. -/
theorem accessors_null_before_init_nonnull_after_witness :
    ((get_wayland_display (run protocol World.start
        [Op.wayland_poll_events [] [], Op.wayland_cleanup])).1 = 0 ∧
      (get_wayland_surface (run protocol World.start
        [Op.wayland_poll_events [] [], Op.wayland_cleanup])).1 = 0) ∧
    (wayland_init protocol script_ok World.start).1 = 1 ∧
    (get_wayland_display (wayland_init protocol script_ok World.start).2).1 = 1 ∧
    (get_wayland_surface (wayland_init protocol script_ok World.start).2).1 = 5 :=
  have h := (accessors_null_before_init_nonnull_after protocol).2.1 script_ok World.start
    (by decide)
  ⟨(accessors_null_before_init_nonnull_after protocol).1 _ (by decide), by decide, h.1, h.2.2.1⟩

/-! ### The quit flag -/

theorem closeRan_append (t u : List Entry) : closeRan (t ++ u) = (closeRan t || closeRan u) := by
  simp [closeRan]

theorem closeRan_calls (rs : List Request) : closeRan (rs.map Entry.call) = false := by
  induction rs with
  | nil => rfl
  | cons r rs ih =>
    simp only [closeRan, List.map_cons, List.any_cons, Entry.isClose, Bool.false_or] at ih ⊢
    exact ih

theorem quitTracks_of_calls (v w : World) (rs : List Request) (hq : v.quit = w.quit)
    (ht : v.trace = w.trace ++ rs.map Entry.call) (h : w.quitTracksClose) :
    v.quitTracksClose := by
  unfold World.quitTracksClose at h ⊢
  rw [hq, ht, closeRan_append, closeRan_calls, Bool.or_false]
  exact h

theorem registry_global_quitTracks (I : Interfaces) (w : World) (r n : Nat) (i : String)
    (v b : Nat) (h : w.quitTracksClose) : (registry_global I w r n i v b).quitTracksClose := by
  unfold registry_global
  split_ifs
  · exact quitTracks_of_calls _ w [Request.wl_registry_bind r n Iface.wl_compositor 1 b] rfl rfl h
  · exact quitTracks_of_calls _ w [Request.wl_registry_bind r n Iface.xdg_wm_base 1 b,
      Request.xdg_wm_base_add_listener b] rfl (by simp) h
  · exact h

theorem fire_quitTracks (w : World) (e : Event) (he : (Entry.event e).isClose = false)
    (h : w.quitTracksClose) : (w.fire e).quitTracksClose := by
  unfold World.quitTracksClose at h ⊢
  rw [fire_quit, fire_trace, closeRan_append]
  simp only [closeRan, List.any_cons, he, List.any_nil, Bool.or_false]
  exact h

theorem deliver_quitTracks (I : Interfaces) (w : World) (e : Event) (h : w.quitTracksClose) :
    (deliver I w e).quitTracksClose := by
  unfold deliver
  cases e with
  | registry_global r n i v b =>
    dsimp only
    split_ifs
    · exact registry_global_quitTracks I _ r n i v b (fire_quitTracks w _ rfl h)
    · exact h
  | registry_global_remove r n =>
    dsimp only
    split_ifs
    · exact fire_quitTracks w _ rfl h
    · exact h
  | shell_ping sh n =>
    dsimp only
    split_ifs
    · exact quitTracks_of_calls _ (w.fire (Event.shell_ping sh n))
        [Request.xdg_wm_base_pong sh n] rfl rfl (fire_quitTracks w _ rfl h)
    · exact h
  | shell_surface_configure sh n =>
    dsimp only
    split_ifs
    · exact quitTracks_of_calls _ (w.fire (Event.shell_surface_configure sh n))
        [Request.xdg_surface_ack_configure sh n] rfl rfl (fire_quitTracks w _ rfl h)
    · exact h
  | toplevel_configure t a b st =>
    dsimp only
    split_ifs
    · exact fire_quitTracks w _ rfl h
    · exact h
  | toplevel_close t =>
    dsimp only
    split_ifs
    · unfold World.quitTracksClose toplevel_close
      simp [closeRan_append, closeRan, Entry.isClose]
    · exact h

theorem dispatch_quitTracks (I : Interfaces) (events : List Event) (w : World)
    (h : w.quitTracksClose) : (dispatch I w events).quitTracksClose := by
  induction events generalizing w with
  | nil => exact h
  | cons e es ih => exact ih (deliver I w e) (deliver_quitTracks I w e h)

theorem call_quitTracks (w : World) (r : Request) (h : w.quitTracksClose) :
    (w.call r).quitTracksClose :=
  quitTracks_of_calls _ w [r] rfl rfl h

theorem printf_quitTracks (w : World) (p : Printed) (h : w.quitTracksClose) :
    (w.printf p).quitTracksClose := h

theorem poll_quitTracks (I : Interfaces) (p r : List Event) (w : World)
    (h : w.quitTracksClose) : (wayland_poll_events I p r w).quitTracksClose := by
  unfold wayland_poll_events
  split_ifs
  · exact dispatch_quitTracks I r _ (call_quitTracks _ _ (dispatch_quitTracks I p _
      (call_quitTracks _ _ h)))
  · exact h

theorem cleanup_quitTracks (w : World) (h : w.quitTracksClose) :
    (wayland_cleanup w).quitTracksClose :=
  quitTracks_of_calls _ w (expected_releases w) (cleanup_quit w) (cleanup_trace w) h

theorem init_discover_quitTracks (I : Interfaces) (L : InitScript) (w : World)
    (h : w.quitTracksClose) : (init_discover I L w).quitTracksClose := by
  unfold init_discover
  apply dispatch_quitTracks
  apply call_quitTracks
  apply dispatch_quitTracks
  apply call_quitTracks
  exact quitTracks_of_calls _ w [Request.wl_display_connect L.connect,
    Request.wl_display_get_registry L.connect L.get_registry,
    Request.wl_registry_add_listener L.get_registry]
    (by simp [init_registry, init_connect]) (by simp [init_registry, init_connect]) h

theorem init_stage_quit (I : Interfaces) (L : InitScript) (w : World) :
    (init_connect L w).quit = w.quit ∧ (init_registry L w).quit = w.quit ∧
    (init_surface I L w).quit = (init_discover I L w).quit ∧
    (init_shell_surface I L w).quit = (init_discover I L w).quit ∧
    (init_toplevel I L w).quit = (init_discover I L w).quit ∧
    (init_commit I L w).quit = (init_discover I L w).quit := by
  refine ⟨?_, ?_, ?_, ?_, ?_, ?_⟩
  · simp [init_connect]
  · simp [init_registry, init_connect]
  · simp [init_surface]
  · simp [init_shell_surface, init_surface]
  · simp [init_toplevel, init_shell_surface, init_surface]
  · simp [init_commit, init_toplevel, init_shell_surface, init_surface]

theorem init_commit_trace (I : Interfaces) (L : InitScript) (w : World) :
    (init_commit I L w).trace = (init_discover I L w).trace ++
      [Entry.call (Request.wl_compositor_create_surface (init_discover I L w).compositor
        L.create_surface),
       Entry.call (Request.xdg_wm_base_get_xdg_surface (init_discover I L w).shell
        L.create_surface L.get_xdg_surface),
       Entry.call (Request.xdg_surface_add_listener L.get_xdg_surface),
       Entry.call (Request.xdg_surface_get_toplevel L.get_xdg_surface L.get_toplevel),
       Entry.call (Request.xdg_toplevel_add_listener L.get_toplevel),
       Entry.call (Request.xdg_toplevel_set_title L.get_toplevel "Vulkan Triangle"),
       Entry.call (Request.xdg_toplevel_set_app_id L.get_toplevel "vulkan-triangle"),
       Entry.call (Request.wl_surface_commit L.create_surface)] := by
  simp [init_commit, init_toplevel, init_shell_surface, init_surface]

theorem wayland_init_quitTracks (I : Interfaces) (L : InitScript) (w : World)
    (h : w.quitTracksClose) : (wayland_init I L w).2.quitTracksClose := by
  obtain ⟨t1, t2, t3, t4, t5⟩ := init_stage_traces I L w
  obtain ⟨q1, q2, q3, q4, q5, q6⟩ := init_stage_quit I L w
  have hd := init_discover_quitTracks I L w h
  rw [wayland_init_eq_stages]
  split_ifs
  · exact quitTracks_of_calls _ w [_] q1 t1 h
  · exact quitTracks_of_calls _ w [_, _] q2 t2 h
  · exact hd
  · exact quitTracks_of_calls _ _ [_] q3 t3 hd
  · exact quitTracks_of_calls _ _ [_, _] q4 t4 hd
  · exact quitTracks_of_calls _ _ [_, _, _, _] q5 t5 hd
  · rw [init_complete_eq]
    apply printf_quitTracks
    apply call_quitTracks
    apply dispatch_quitTracks
    apply call_quitTracks
    exact quitTracks_of_calls _ _ [_, _, _, _, _, _, _, _] q6 (init_commit_trace I L w) hd

theorem step_quitTracks (I : Interfaces) (w : World) (op : Op) (h : w.quitTracksClose) :
    (step I w op).quitTracksClose := by
  cases op with
  | wayland_init L => exact wayland_init_quitTracks I L w h
  | wayland_poll_events p r => exact poll_quitTracks I p r w h
  | wayland_cleanup => exact cleanup_quitTracks w h
  | get_wayland_display => exact h
  | get_wayland_surface => exact h
  | wayland_should_quit => exact h

theorem run_quitTracks (I : Interfaces) (ops : List Op) (w : World) (h : w.quitTracksClose) :
    (run I w ops).quitTracksClose := by
  induction ops generalizing w with
  | nil => exact h
  | cons op ops ih => exact ih (step I w op) (step_quitTracks I w op h)

theorem registry_global_quit (I : Interfaces) (w : World) (r n : Nat) (i : String)
    (v b : Nat) : (registry_global I w r n i v b).quit = w.quit := by
  unfold registry_global
  split_ifs <;> rfl

theorem deliver_quit_one (I : Interfaces) (w : World) (e : Event) (h : w.quit = 1) :
    (deliver I w e).quit = 1 := by
  unfold deliver
  cases e with
  | registry_global r n i v b =>
    dsimp only
    split_ifs
    · rw [registry_global_quit]; exact h
    · exact h
  | toplevel_close t => dsimp only; split_ifs <;> first | rfl | exact h
  | _ => dsimp only; split_ifs <;> exact h

theorem dispatch_quit_one (I : Interfaces) (events : List Event) (w : World) (h : w.quit = 1) :
    (dispatch I w events).quit = 1 := by
  induction events generalizing w with
  | nil => exact h
  | cons e es ih => exact ih (deliver I w e) (deliver_quit_one I w e h)

theorem init_discover_quit_one (I : Interfaces) (L : InitScript) (w : World) (h : w.quit = 1) :
    (init_discover I L w).quit = 1 := by
  unfold init_discover
  apply dispatch_quit_one
  rw [call_quit]
  apply dispatch_quit_one
  simpa [init_registry, init_connect] using h

theorem wayland_init_quit_one (I : Interfaces) (L : InitScript) (w : World) (h : w.quit = 1) :
    (wayland_init I L w).2.quit = 1 := by
  obtain ⟨q1, q2, q3, q4, q5, q6⟩ := init_stage_quit I L w
  have hd := init_discover_quit_one I L w h
  rw [wayland_init_eq_stages]
  split_ifs
  · rw [printf_quit, q1]; exact h
  · rw [printf_quit, q2]; exact h
  · exact hd
  · rw [printf_quit, q3]; exact hd
  · rw [printf_quit, q4]; exact hd
  · rw [printf_quit, q5]; exact hd
  · rw [init_complete_eq, printf_quit, call_quit]
    apply dispatch_quit_one
    rw [call_quit, q6]
    exact hd

theorem step_quit_one (I : Interfaces) (w : World) (op : Op) (h : w.quit = 1) :
    (step I w op).quit = 1 := by
  cases op with
  | wayland_init L => exact wayland_init_quit_one I L w h
  | wayland_poll_events p r =>
    show (wayland_poll_events I p r w).quit = 1
    unfold wayland_poll_events
    split_ifs
    · apply dispatch_quit_one
      rw [call_quit]
      apply dispatch_quit_one
      exact h
    · exact h
  | wayland_cleanup => exact (cleanup_quit w).trans h
  | get_wayland_display => exact h
  | get_wayland_surface => exact h
  | wayland_should_quit => exact h

theorem run_quit_one (I : Interfaces) (ops : List Op) (w : World) (h : w.quit = 1) :
    (run I w ops).quit = 1 := by
  induction ops generalizing w with
  | nil => exact h
  | cons op ops ih => exact ih (step I w op) (step_quit_one I w op h)

theorem start_quitTracks : World.start.quitTracksClose := by
  simp [World.quitTracksClose, World.start, closeRan]

/-- C6: `wayland_should_quit` returns 0 in the start state and in every state reached from it
in which `toplevel_close` has not run; once `toplevel_close` has run it returns 1 in every later
state, whatever calls follow. `toplevel_close` only sets the flag to 1; `wayland_cleanup` and the
other five callbacks leave the flag as it is, and `wayland_should_quit` changes nothing. -/
theorem quit_flag_follows_toplevel_close (I : Interfaces) :
    (wayland_should_quit World.start).1 = 0 ∧
    (∀ ops : List Op, closeRan (run I World.start ops).trace = false →
      (wayland_should_quit (run I World.start ops)).1 = 0) ∧
    (∀ ops later : List Op, closeRan (run I World.start ops).trace = true →
      (wayland_should_quit (run I World.start (ops ++ later))).1 = 1) ∧
    (∀ (w : World) (t : Ptr), toplevel_close w t = { w with quit := 1 }) ∧
    (∀ w : World, (wayland_should_quit w).2 = w) ∧
    (∀ w : World, (wayland_cleanup w).quit = w.quit) ∧
    (∀ (w : World) (p : Ptr) (n : Nat), (shell_ping w p n).quit = w.quit) ∧
    (∀ (w : World) (p : Ptr) (n : Nat), (shell_surface_configure w p n).quit = w.quit) ∧
    (∀ (w : World) (p : Ptr) (a b : Int) (st : List Nat),
      (toplevel_configure w p a b st).quit = w.quit) ∧
    (∀ (w : World) (r n : Nat) (i : String) (v b : Nat),
      (registry_global I w r n i v b).quit = w.quit) ∧
    (∀ (w : World) (r n : Nat), (registry_global_remove w r n).quit = w.quit) := by
  refine ⟨rfl, ?_, ?_, fun _ _ => rfl, fun _ => rfl, cleanup_quit, fun _ _ _ => rfl,
    fun _ _ _ => rfl, fun _ _ _ _ _ => rfl, registry_global_quit I, fun _ _ _ => rfl⟩
  · intro ops h
    have hq := run_quitTracks I ops World.start start_quitTracks
    unfold World.quitTracksClose at hq
    rw [h] at hq
    exact hq
  · intro ops later h
    have hq := run_quitTracks I ops World.start start_quitTracks
    unfold World.quitTracksClose at hq
    rw [h] at hq
    rw [run_append]
    exact run_quit_one I later _ hq

/-- C6 at a concrete run: after `script_ok` the flag is 0; a poll that delivers the close event
to the toplevel sets it, and it is still 1 after `wayland_cleanup` and a new `wayland_init`. -/
theorem quit_flag_follows_toplevel_close_witness :
    (wayland_should_quit (run protocol World.start [Op.wayland_init script_ok])).1 = 0 ∧
    (wayland_should_quit (run protocol World.start
      ([Op.wayland_init script_ok, Op.wayland_poll_events [] [Event.toplevel_close 7]] ++
        [Op.wayland_cleanup, Op.wayland_init script_ok]))).1 = 1 :=
  ⟨(quit_flag_follows_toplevel_close protocol).2.1 [Op.wayland_init script_ok] (by decide),
   (quit_flag_follows_toplevel_close protocol).2.2.1
     [Op.wayland_init script_ok, Op.wayland_poll_events [] [Event.toplevel_close 7]]
     [Op.wayland_cleanup, Op.wayland_init script_ok] (by decide)⟩

/-! ### The session does not depend on the logs -/

theorem session_eq_iff (v w : World) :
    v.session = w.session ↔
      v.display = w.display ∧ v.registry = w.registry ∧ v.compositor = w.compositor ∧
      v.shell = w.shell ∧ v.surface = w.surface ∧ v.shell_surface = w.shell_surface ∧
      v.toplevel = w.toplevel ∧ v.quit = w.quit ∧ v.listeners = w.listeners := by
  simp only [World.session, World.handles, Prod.mk.injEq, List.cons.injEq, and_true]
  tauto

theorem registry_global_session (I : Interfaces) (v w : World) (r n : Nat) (i : String)
    (x b : Nat) (h : v.session = w.session) :
    (registry_global I v r n i x b).session = (registry_global I w r n i x b).session := by
  rw [session_eq_iff] at h ⊢
  obtain ⟨h1, h2, h3, h4, h5, h6, h7, h8, h9⟩ := h
  unfold registry_global
  split_ifs <;> simp [h1, h2, h3, h4, h5, h6, h7, h8, h9]

theorem deliver_session (I : Interfaces) (v w : World) (e : Event) (h : v.session = w.session) :
    (deliver I v e).session = (deliver I w e).session := by
  have hl : v.listeners = w.listeners := ((session_eq_iff v w).1 h).2.2.2.2.2.2.2.2
  have hf : ∀ x : Event, (v.fire x).session = (w.fire x).session := fun _ => h
  unfold deliver
  cases e with
  | registry_global r n i x b =>
    dsimp only
    rw [hl]
    split_ifs
    · exact registry_global_session I _ _ r n i x b (hf _)
    · exact h
  | toplevel_close t =>
    dsimp only
    rw [hl]
    split_ifs
    · rw [session_eq_iff] at h ⊢
      obtain ⟨h1, h2, h3, h4, h5, h6, h7, h8, h9⟩ := h
      simp [toplevel_close, h1, h2, h3, h4, h5, h6, h7, h9]
    · exact h
  | _ =>
    dsimp only
    rw [hl]
    split_ifs
    · exact h
    · exact h

theorem dispatch_session (I : Interfaces) (events : List Event) (v w : World)
    (h : v.session = w.session) :
    (dispatch I v events).session = (dispatch I w events).session := by
  induction events generalizing v w with
  | nil => exact h
  | cons e es ih => exact ih _ _ (deliver_session I v w e h)

theorem call_session (w : World) (r : Request) : (w.call r).session = w.session := rfl

theorem printf_session (w : World) (p : Printed) : (w.printf p).session = w.session := rfl

/-! ### Order of the two capability announcements -/

theorem registry_global_compositor_eq (I : Interfaces) (w : World) (r n x b : Nat) :
    registry_global I w r n I.wl_compositor_name x b =
      ({ w.call (Request.wl_registry_bind r n Iface.wl_compositor 1 b) with
          compositor := b } : World).printf (Printed.text "Found compositor\n") := by
  unfold registry_global
  rw [if_pos rfl]

theorem registry_global_shell_eq (I : Interfaces)
    (hI : I.wl_compositor_name ≠ I.xdg_wm_base_name) (w : World) (r n x b : Nat) :
    registry_global I w r n I.xdg_wm_base_name x b =
      (({ w.call (Request.wl_registry_bind r n Iface.xdg_wm_base 1 b) with
          shell := b } : World).attach (Request.xdg_wm_base_add_listener b) Kind.shell b).printf
        (Printed.text "Found xdg_wm_base\n") := by
  unfold registry_global
  rw [if_neg (fun h => hI h.symm), if_pos rfl]

theorem registry_global_swap (I : Interfaces) (hI : I.wl_compositor_name ≠ I.xdg_wm_base_name)
    (w : World) (rc nc vc bc rs ns vs bs : Nat) :
    (registry_global I (registry_global I w rs ns I.xdg_wm_base_name vs bs)
        rc nc I.wl_compositor_name vc bc).session =
      (registry_global I (registry_global I w rc nc I.wl_compositor_name vc bc)
        rs ns I.xdg_wm_base_name vs bs).session ∧
    (registry_global I (registry_global I w rs ns I.xdg_wm_base_name vs bs)
        rc nc I.wl_compositor_name vc bc).compositor = bc ∧
    (registry_global I (registry_global I w rs ns I.xdg_wm_base_name vs bs)
        rc nc I.wl_compositor_name vc bc).shell = bs ∧
    (registry_global I (registry_global I w rc nc I.wl_compositor_name vc bc)
        rs ns I.xdg_wm_base_name vs bs).compositor = bc ∧
    (registry_global I (registry_global I w rc nc I.wl_compositor_name vc bc)
        rs ns I.xdg_wm_base_name vs bs).shell = bs := by
  simp only [registry_global_compositor_eq, registry_global_shell_eq I hI, session_eq_iff]
  simp

theorem deliver_announced (I : Interfaces) (w : World) (r n : Nat) (i : String) (x b : Nat)
    (h : (Kind.registry, r) ∈ w.listeners) :
    deliver I w (Event.registry_global r n i x b) =
      registry_global I (w.fire (Event.registry_global r n i x b)) r n i x b := by
  simp only [deliver, if_pos h]

theorem deliver_unannounced (I : Interfaces) (w : World) (r n : Nat) (i : String) (x b : Nat)
    (h : (Kind.registry, r) ∉ w.listeners) :
    deliver I w (Event.registry_global r n i x b) = w := by
  simp only [deliver, if_neg h]

theorem deliver_swap (I : Interfaces) (hI : I.wl_compositor_name ≠ I.xdg_wm_base_name)
    (w : World) (rc nc vc bc rs ns vs bs : Nat) :
    (deliver I (deliver I w (Event.registry_global rs ns I.xdg_wm_base_name vs bs))
        (Event.registry_global rc nc I.wl_compositor_name vc bc)).session =
      (deliver I (deliver I w (Event.registry_global rc nc I.wl_compositor_name vc bc))
        (Event.registry_global rs ns I.xdg_wm_base_name vs bs)).session := by
  have lc := deliver_listeners I w (Event.registry_global rc nc I.wl_compositor_name vc bc)
    Kind.registry rs (by decide)
  have ls := deliver_listeners I w (Event.registry_global rs ns I.xdg_wm_base_name vs bs)
    Kind.registry rc (by decide)
  by_cases hc : (Kind.registry, rc) ∈ w.listeners <;>
  by_cases hs : (Kind.registry, rs) ∈ w.listeners
  · rw [deliver_announced I _ rc nc _ vc bc (ls.2 hc), deliver_announced I _ rs ns _ vs bs (lc.2 hs),
      deliver_announced I w rc nc _ vc bc hc, deliver_announced I w rs ns _ vs bs hs]
    simp only [registry_global_compositor_eq, registry_global_shell_eq I hI, session_eq_iff]
    simp
  · rw [deliver_announced I _ rc nc _ vc bc (ls.2 hc),
      deliver_unannounced I _ rs ns _ vs bs (fun h => hs (lc.1 h)),
      deliver_unannounced I w rs ns _ vs bs hs, deliver_announced I w rc nc _ vc bc hc]
  · rw [deliver_unannounced I _ rc nc _ vc bc (fun h => hc (ls.1 h)),
      deliver_announced I _ rs ns _ vs bs (lc.2 hs),
      deliver_unannounced I w rc nc _ vc bc hc, deliver_announced I w rs ns _ vs bs hs]
  · rw [deliver_unannounced I _ rc nc _ vc bc (fun h => hc (ls.1 h)),
      deliver_unannounced I _ rs ns _ vs bs (fun h => hs (lc.1 h)),
      deliver_unannounced I w rc nc _ vc bc hc, deliver_unannounced I w rs ns _ vs bs hs]

theorem init_stage_sessions (I : Interfaces) (L : InitScript) (w : World) :
    (init_connect L w).session =
      ([L.connect, w.registry, w.compositor, w.shell, w.surface, w.shell_surface, w.toplevel],
        w.quit, w.listeners) ∧
    (init_registry L w).session =
      ([L.connect, L.get_registry, w.compositor, w.shell, w.surface, w.shell_surface,
        w.toplevel], w.quit, w.listeners) ∧
    (init_surface I L w).session =
      ([L.connect, L.get_registry, (init_discover I L w).compositor, (init_discover I L w).shell,
        L.create_surface, w.shell_surface, w.toplevel],
        (init_discover I L w).quit, (init_discover I L w).listeners) ∧
    (init_shell_surface I L w).session =
      ([L.connect, L.get_registry, (init_discover I L w).compositor, (init_discover I L w).shell,
        L.create_surface, L.get_xdg_surface, w.toplevel],
        (init_discover I L w).quit, (init_discover I L w).listeners) ∧
    (init_toplevel I L w).session =
      ([L.connect, L.get_registry, (init_discover I L w).compositor, (init_discover I L w).shell,
        L.create_surface, L.get_xdg_surface, L.get_toplevel],
        (init_discover I L w).quit,
        (Kind.shell_surface, L.get_xdg_surface) :: (init_discover I L w).listeners) ∧
    (init_commit I L w).session =
      ([L.connect, L.get_registry, (init_discover I L w).compositor, (init_discover I L w).shell,
        L.create_surface, L.get_xdg_surface, L.get_toplevel],
        (init_discover I L w).quit,
        (Kind.toplevel, L.get_toplevel) :: (Kind.shell_surface, L.get_xdg_surface) ::
          (init_discover I L w).listeners) := by
  refine ⟨?_, ?_, ?_, ?_, ?_, ?_⟩
  · simp [World.session, World.handles, init_connect]
  · simp [World.session, World.handles, init_registry, init_connect]
  · simp [World.session, World.handles, init_surface]
  · simp [World.session, World.handles, init_shell_surface, init_surface]
  · simp [World.session, World.handles, init_toplevel, init_shell_surface, init_surface]
  · simp [World.session, World.handles, init_commit, init_toplevel, init_shell_surface,
      init_surface]

theorem wayland_init_congr (I : Interfaces) (L : InitScript) (d1 d2 : List Event) (w : World)
    (hD : (init_discover I { L with dispatch := d1 } w).session =
      (init_discover I { L with dispatch := d2 } w).session) :
    (wayland_init I { L with dispatch := d1 } w).1 =
      (wayland_init I { L with dispatch := d2 } w).1 ∧
    (wayland_init I { L with dispatch := d1 } w).2.session =
      (wayland_init I { L with dispatch := d2 } w).2.session := by
  obtain ⟨a1, a2, a3, a4, a5, a6⟩ := init_stage_sessions I { L with dispatch := d1 } w
  obtain ⟨b1, b2, b3, b4, b5, b6⟩ := init_stage_sessions I { L with dispatch := d2 } w
  have hf := (session_eq_iff _ _).1 hD
  obtain ⟨_, _, f3, f4, _, _, _, f8, f9⟩ := hf
  have e3 : (init_surface I { L with dispatch := d1 } w).session =
      (init_surface I { L with dispatch := d2 } w).session := by rw [a3, b3, f3, f4, f8, f9]
  have e4 : (init_shell_surface I { L with dispatch := d1 } w).session =
      (init_shell_surface I { L with dispatch := d2 } w).session := by
    rw [a4, b4, f3, f4, f8, f9]
  have e5 : (init_toplevel I { L with dispatch := d1 } w).session =
      (init_toplevel I { L with dispatch := d2 } w).session := by rw [a5, b5, f3, f4, f8, f9]
  have e6 : (init_commit I { L with dispatch := d1 } w).session =
      (init_commit I { L with dispatch := d2 } w).session := by rw [a6, b6, f3, f4, f8, f9]
  rw [wayland_init_eq_stages, wayland_init_eq_stages]
  simp only [init_connect_display, init_registry_registry, init_surface_surface,
    init_shell_surface_shell_surface, init_toplevel_toplevel, f3, f4]
  split_ifs
  · exact ⟨rfl, by rw [printf_session, printf_session, a1, b1]⟩
  · exact ⟨rfl, by rw [printf_session, printf_session, a2, b2]⟩
  · exact ⟨rfl, by rw [printf_session, printf_session]; exact hD⟩
  · exact ⟨rfl, by rw [printf_session, printf_session]; exact e3⟩
  · exact ⟨rfl, by rw [printf_session, printf_session]; exact e4⟩
  · exact ⟨rfl, by rw [printf_session, printf_session]; exact e5⟩
  · refine ⟨rfl, ?_⟩
    rw [init_complete_eq, init_complete_eq, printf_session, printf_session, call_session,
      call_session]
    exact dispatch_session I _ _ _ e6

theorem init_discover_swap (I : Interfaces) (hI : I.wl_compositor_name ≠ I.xdg_wm_base_name)
    (L : InitScript) (w : World) (rc nc vc bc rs ns vs bs : Nat) :
    (init_discover I { L with dispatch :=
        [Event.registry_global rs ns I.xdg_wm_base_name vs bs,
         Event.registry_global rc nc I.wl_compositor_name vc bc] } w).session =
      (init_discover I { L with dispatch :=
        [Event.registry_global rc nc I.wl_compositor_name vc bc,
         Event.registry_global rs ns I.xdg_wm_base_name vs bs] } w).session := by
  unfold init_discover
  simp only [dispatch_cons, dispatch_nil]
  apply dispatch_session
  simp only [dispatch_display, call_display, attach_display, init_registry_display]
  rw [call_session, call_session]
  exact deliver_swap I hI _ rc nc vc bc rs ns vs bs

theorem init_discover_both_announced (I : Interfaces)
    (hI : I.wl_compositor_name ≠ I.xdg_wm_base_name) (L : InitScript) (w : World)
    (nc vc bc ns vs bs : Nat) (hc : bc ≠ 0) (hs : bs ≠ 0)
    (hr : ∀ e ∈ L.roundtrip, e.nullBind = false) :
    (init_discover I { L with dispatch :=
        [Event.registry_global L.get_registry nc I.wl_compositor_name vc bc,
         Event.registry_global L.get_registry ns I.xdg_wm_base_name vs bs] } w).compositor ≠ 0 ∧
    (init_discover I { L with dispatch :=
        [Event.registry_global L.get_registry nc I.wl_compositor_name vc bc,
         Event.registry_global L.get_registry ns I.xdg_wm_base_name vs bs] } w).shell ≠ 0 := by
  unfold init_discover
  simp only [dispatch_cons, dispatch_nil, init_registry_registry, init_registry_display,
    attach_display, call_display]
  have h1 : (Kind.registry, L.get_registry) ∈
      (((init_registry { L with dispatch :=
        [Event.registry_global L.get_registry nc I.wl_compositor_name vc bc,
         Event.registry_global L.get_registry ns I.xdg_wm_base_name vs bs] } w).attach
        (Request.wl_registry_add_listener L.get_registry) Kind.registry L.get_registry).call
        (Request.wl_display_dispatch L.connect)).listeners := by
    simp
  rw [deliver_announced I _ _ nc _ vc bc h1]
  have h2 := (registry_global_listeners I _ L.get_registry nc I.wl_compositor_name vc bc
    Kind.registry L.get_registry (by decide)).2
    ((fire_listeners _ (Event.registry_global L.get_registry nc I.wl_compositor_name vc bc)).symm
      ▸ h1)
  rw [deliver_announced I _ _ ns _ vs bs h2]
  have h3 := dispatch_caps_ne_zero I L.roundtrip
  simp only [dispatch_display, call_display] at h3 ⊢
  refine ⟨(h3 _ hr).1 ?_, (h3 _ hr).2 ?_⟩
  · simp only [call_compositor, registry_global_compositor_eq, registry_global_shell_eq I hI]
    simpa using hc
  · simp only [call_shell, registry_global_compositor_eq, registry_global_shell_eq I hI]
    simpa using hs

/-- C7: when the two interface names differ, `registry_global` run on a compositor announcement
and a shell announcement leaves the same handles, quit flag and listeners in either order, with
`compositor` and `shell` the two bound proxies; and `wayland_init` whose discovery dispatch
delivers the two announcements in the order shell, compositor returns the same value and ends in
the same session as with the order compositor, shell. When the announcements are addressed to the
new registry and bound to proxies that are not `NULL`, and every later step succeeds, both
orders return 1. The two runs differ only in the order of the logged requests and printed
lines. -/
theorem capability_discovery_order_independent (I : Interfaces)
    (hI : I.wl_compositor_name ≠ I.xdg_wm_base_name) :
    (∀ (w : World) (rc nc vc bc rs ns vs bs : Nat),
      (registry_global I (registry_global I w rs ns I.xdg_wm_base_name vs bs)
          rc nc I.wl_compositor_name vc bc).session =
        (registry_global I (registry_global I w rc nc I.wl_compositor_name vc bc)
          rs ns I.xdg_wm_base_name vs bs).session ∧
      (registry_global I (registry_global I w rs ns I.xdg_wm_base_name vs bs)
          rc nc I.wl_compositor_name vc bc).compositor = bc ∧
      (registry_global I (registry_global I w rs ns I.xdg_wm_base_name vs bs)
          rc nc I.wl_compositor_name vc bc).shell = bs ∧
      (registry_global I (registry_global I w rc nc I.wl_compositor_name vc bc)
          rs ns I.xdg_wm_base_name vs bs).compositor = bc ∧
      (registry_global I (registry_global I w rc nc I.wl_compositor_name vc bc)
          rs ns I.xdg_wm_base_name vs bs).shell = bs) ∧
    (∀ (L : InitScript) (w : World) (rc nc vc bc rs ns vs bs : Nat),
      (wayland_init I { L with dispatch :=
          [Event.registry_global rs ns I.xdg_wm_base_name vs bs,
           Event.registry_global rc nc I.wl_compositor_name vc bc] } w).1 =
        (wayland_init I { L with dispatch :=
          [Event.registry_global rc nc I.wl_compositor_name vc bc,
           Event.registry_global rs ns I.xdg_wm_base_name vs bs] } w).1 ∧
      (wayland_init I { L with dispatch :=
          [Event.registry_global rs ns I.xdg_wm_base_name vs bs,
           Event.registry_global rc nc I.wl_compositor_name vc bc] } w).2.session =
        (wayland_init I { L with dispatch :=
          [Event.registry_global rc nc I.wl_compositor_name vc bc,
           Event.registry_global rs ns I.xdg_wm_base_name vs bs] } w).2.session) ∧
    (∀ (L : InitScript) (nc vc bc ns vs bs : Nat),
      L.connect ≠ 0 → L.get_registry ≠ 0 → bc ≠ 0 → bs ≠ 0 →
      (∀ e ∈ L.roundtrip, e.nullBind = false) →
      L.create_surface ≠ 0 → L.get_xdg_surface ≠ 0 → L.get_toplevel ≠ 0 →
      (wayland_init I { L with dispatch :=
          [Event.registry_global L.get_registry ns I.xdg_wm_base_name vs bs,
           Event.registry_global L.get_registry nc I.wl_compositor_name vc bc] }
        World.start).1 = 1 ∧
      (wayland_init I { L with dispatch :=
          [Event.registry_global L.get_registry nc I.wl_compositor_name vc bc,
           Event.registry_global L.get_registry ns I.xdg_wm_base_name vs bs] }
        World.start).1 = 1) := by
  refine ⟨fun w rc nc vc bc rs ns vs bs => registry_global_swap I hI w rc nc vc bc rs ns vs bs,
    fun L w rc nc vc bc rs ns vs bs =>
      wayland_init_congr I L _ _ w (init_discover_swap I hI L w rc nc vc bc rs ns vs bs), ?_⟩
  intro L nc vc bc ns vs bs h1 h2 hc hs hr h5 h6 h7
  obtain ⟨d1, d2⟩ := init_discover_both_announced I hI L World.start nc vc bc ns vs bs hc hs hr
  have hcs := wayland_init_of_success I { L with dispatch :=
    [Event.registry_global L.get_registry nc I.wl_compositor_name vc bc,
     Event.registry_global L.get_registry ns I.xdg_wm_base_name vs bs] } World.start
    h1 h2 d1 d2 h5 h6 h7
  have hsw := (wayland_init_congr I L _ _ World.start
    (init_discover_swap I hI L World.start L.get_registry nc vc bc L.get_registry ns vs bs)).1
  rw [hsw, hcs]
  exact ⟨rfl, rfl⟩

/-- C7 at the protocol's interface names: `script_ok` with the two announcements in the order
shell, compositor returns 1 and ends in the same session as `script_ok` itself. -/
theorem capability_discovery_order_independent_witness :
    (wayland_init protocol { script_ok with dispatch :=
        [Event.registry_global 2 2 "xdg_wm_base" 2 4,
         Event.registry_global 2 1 "wl_compositor" 4 3] } World.start).1 = 1 ∧
    (wayland_init protocol { script_ok with dispatch :=
        [Event.registry_global 2 2 "xdg_wm_base" 2 4,
         Event.registry_global 2 1 "wl_compositor" 4 3] } World.start).2.session =
      (wayland_init protocol script_ok World.start).2.session :=
  ⟨((capability_discovery_order_independent protocol (by decide)).2.2 script_ok 1 4 3 2 2 4
      (by decide) (by decide) (by decide) (by decide) (by decide) (by decide) (by decide)
      (by decide)).1,
   ((capability_discovery_order_independent protocol (by decide)).2.1 script_ok World.start
      2 1 4 3 2 2 2 4).2⟩

/-! ### Discovery without the shell -/

theorem deliver_shell_unannounced (I : Interfaces) (w : World) (e : Event)
    (he : e.announces I.xdg_wm_base_name = false) : (deliver I w e).shell = w.shell := by
  unfold deliver
  cases e with
  | registry_global r n i v b =>
    have hi : i ≠ I.xdg_wm_base_name := by simpa [Event.announces] using he
    dsimp only
    split_ifs
    · unfold registry_global
      split_ifs
      · rfl
      · rfl
    · rfl
  | _ => dsimp only; split_ifs <;> rfl

theorem dispatch_shell_unannounced (I : Interfaces) (events : List Event) (w : World)
    (he : ∀ e ∈ events, e.announces I.xdg_wm_base_name = false) :
    (dispatch I w events).shell = w.shell := by
  induction events generalizing w with
  | nil => rfl
  | cons e es ih =>
    rw [dispatch_cons, ih _ (fun x hx => he x (List.mem_cons_of_mem _ hx)),
      deliver_shell_unannounced I w e (he e (List.mem_cons_self _ _))]

theorem dispatch_compositor_announced (I : Interfaces) (events : List Event) (w : World)
    (r n v b : Nat) (hl : (Kind.registry, r) ∈ w.listeners)
    (hm : Event.registry_global r n I.wl_compositor_name v b ∈ events)
    (he : ∀ e ∈ events, e.nullBind = false) : (dispatch I w events).compositor ≠ 0 := by
  induction events generalizing w with
  | nil => simp at hm
  | cons e es ih =>
    rw [dispatch_cons]
    have hes : ∀ x ∈ es, x.nullBind = false := fun x hx => he x (List.mem_cons_of_mem _ hx)
    rcases List.mem_cons.1 hm with h | h
    · subst h
      have hb : b ≠ 0 := by
        have := he _ (List.mem_cons_self _ _)
        simpa [Event.nullBind] using this
      apply (dispatch_caps_ne_zero I es _ hes).1
      rw [deliver_announced I w r n _ v b hl, registry_global_compositor_eq]
      simpa using hb
    · exact ih _ ((deliver_listeners I w e Kind.registry r (by decide)).2 hl) h hes

theorem registry_global_create_surface (I : Interfaces) (w : World) (r n : Nat) (i : String)
    (v b c p : Nat) :
    Entry.call (Request.wl_compositor_create_surface c p) ∈ (registry_global I w r n i v b).trace ↔
      Entry.call (Request.wl_compositor_create_surface c p) ∈ w.trace := by
  unfold registry_global
  split_ifs <;> simp

theorem deliver_create_surface (I : Interfaces) (w : World) (e : Event) (c p : Nat) :
    Entry.call (Request.wl_compositor_create_surface c p) ∈ (deliver I w e).trace ↔
      Entry.call (Request.wl_compositor_create_surface c p) ∈ w.trace := by
  unfold deliver
  cases e with
  | registry_global r n i v b =>
    dsimp only
    split_ifs
    · rw [registry_global_create_surface]; simp
    · rfl
  | _ =>
    dsimp only
    split_ifs <;>
      simp [shell_ping, shell_surface_configure, toplevel_configure, toplevel_close,
        registry_global_remove]

theorem dispatch_create_surface (I : Interfaces) (events : List Event) (w : World) (c p : Nat) :
    Entry.call (Request.wl_compositor_create_surface c p) ∈ (dispatch I w events).trace ↔
      Entry.call (Request.wl_compositor_create_surface c p) ∈ w.trace := by
  induction events generalizing w with
  | nil => rfl
  | cons e es ih => rw [dispatch_cons, ih, deliver_create_surface]

theorem init_discover_create_surface (I : Interfaces) (L : InitScript) (w : World) (c p : Nat) :
    Entry.call (Request.wl_compositor_create_surface c p) ∈ (init_discover I L w).trace ↔
      Entry.call (Request.wl_compositor_create_surface c p) ∈ w.trace := by
  unfold init_discover
  rw [dispatch_create_surface, call_trace, List.mem_append, dispatch_create_surface]
  simp [init_registry, init_connect]

theorem init_discover_eq_dispatch (I : Interfaces) (L : InitScript) (w : World) :
    init_discover I L w =
      dispatch I ((dispatch I (((init_registry L w).attach
        (Request.wl_registry_add_listener L.get_registry) Kind.registry L.get_registry).call
        (Request.wl_display_dispatch L.connect)) L.dispatch).call
        (Request.wl_display_roundtrip L.connect)) L.roundtrip := by
  unfold init_discover
  simp only [init_registry_registry, init_registry_display, attach_display, dispatch_display,
    call_display]

/-- C8, the claim as stated fails. After a `wayland_init` that succeeded with `script_ok` the
file-scope `shell` still holds the proxy 4. A second `wayland_init` obtains the connection 21 and
the registry 22, and the registry announces only the compositor, bound to 23, and never the
shell; the check of line 92 reads the shell of the first call, so the call goes on, sends
`wl_compositor_create_surface` and returns 1 with the shell handle not `NULL`. -/
theorem wayland_init_passes_on_stale_shell :
    (∀ e ∈ script_again_no_shell.dispatch ++ script_again_no_shell.roundtrip,
      e.announces protocol.xdg_wm_base_name = false) ∧
    (wayland_init protocol script_again_no_shell
      (wayland_init protocol script_ok World.start).2).1 = 1 ∧
    (wayland_init protocol script_again_no_shell
      (wayland_init protocol script_ok World.start).2).2.handles =
        [21, 22, 23, 4, 25, 26, 27] ∧
    Entry.call (Request.wl_compositor_create_surface 23 25) ∈
      (wayland_init protocol script_again_no_shell
        (wayland_init protocol script_ok World.start).2).2.trace := by
  decide

/-- C8, amended: from a state that holds no shell (the start state, or any state after
`wayland_cleanup`), when `wl_display_connect` and `wl_display_get_registry` succeed and the
discovery dispatch and round-trip announce the compositor on the new registry, bind no
announcement to `NULL` and never announce the shell, `wayland_init` returns 0 in the state
reached by the discovery round-trip with only the diagnostic line added: the compositor handle
is not `NULL`, the shell handle is `NULL`, the surface handle is untouched and the call sends no
`wl_compositor_create_surface` request. -/
theorem wayland_init_fails_without_shell (I : Interfaces) (L : InitScript) (w : World)
    (n v b : Nat) (h1 : L.connect ≠ 0) (h2 : L.get_registry ≠ 0) (hw : w.shell = 0)
    (hns : ∀ e ∈ L.dispatch ++ L.roundtrip, e.announces I.xdg_wm_base_name = false)
    (hca : Event.registry_global L.get_registry n I.wl_compositor_name v b ∈
      L.dispatch ++ L.roundtrip)
    (hnb : ∀ e ∈ L.dispatch ++ L.roundtrip, e.nullBind = false) :
    wayland_init I L w =
      (0, (init_discover I L w).printf
        (Printed.missing (init_discover I L w).compositor 0)) ∧
    (wayland_init I L w).2.compositor ≠ 0 ∧
    (wayland_init I L w).2.shell = 0 ∧
    (wayland_init I L w).2.surface = w.surface ∧
    (∀ c p, Entry.call (Request.wl_compositor_create_surface c p) ∈ (wayland_init I L w).2.trace →
      Entry.call (Request.wl_compositor_create_surface c p) ∈ w.trace) := by
  have hsh : (init_discover I L w).shell = 0 := by
    rw [init_discover_eq_dispatch,
      dispatch_shell_unannounced I _ _ (fun e he => hns e (List.mem_append_right _ he)),
      call_shell,
      dispatch_shell_unannounced I _ _ (fun e he => hns e (List.mem_append_left _ he))]
    simpa [init_registry, init_connect] using hw
  have hco : (init_discover I L w).compositor ≠ 0 := by
    rw [init_discover_eq_dispatch]
    have hA : (Kind.registry, L.get_registry) ∈ (((init_registry L w).attach
        (Request.wl_registry_add_listener L.get_registry) Kind.registry L.get_registry).call
        (Request.wl_display_dispatch L.connect)).listeners := by simp
    rcases List.mem_append.1 hca with hm | hm
    · apply (dispatch_caps_ne_zero I _ _ (fun e he => hnb e (List.mem_append_right _ he))).1
      rw [call_compositor]
      exact dispatch_compositor_announced I _ _ _ n v b hA hm
        (fun e he => hnb e (List.mem_append_left _ he))
    · apply dispatch_compositor_announced I _ _ L.get_registry n v b _ hm
        (fun e he => hnb e (List.mem_append_right _ he))
      rw [call_listeners]
      exact (dispatch_listeners I _ _ Kind.registry _ (by decide)).2 hA
  have he : wayland_init I L w =
      (0, (init_discover I L w).printf
        (Printed.missing (init_discover I L w).compositor 0)) := by
    rw [wayland_init_eq_stages]
    simp only [init_connect_display, init_registry_registry, h1, h2, hsh, if_false, or_true,
      if_true]
  rw [he]
  refine ⟨rfl, hco, hsh, ?_, ?_⟩
  · simp
  · intro c p hm
    rw [printf_trace] at hm
    exact (init_discover_create_surface I L w c p).1 hm

/-- C8, the amended claim at the start state with `script_no_shell`. -/
theorem wayland_init_fails_without_shell_witness :
    (wayland_init protocol script_no_shell World.start).1 = 0 ∧
    (wayland_init protocol script_no_shell World.start).2.compositor ≠ 0 ∧
    (wayland_init protocol script_no_shell World.start).2.shell = 0 :=
  have h := wayland_init_fails_without_shell protocol script_no_shell World.start 1 4 3
    (by decide) (by decide) rfl (by decide) (by decide) (by decide)
  ⟨congrArg Prod.fst h.1, h.2.1, h.2.2.1⟩

/-! ### Pings and pongs -/

theorem pingsAnswered_append (t u : List Entry) (ht : pingsAnswered t = true)
    (hu : pingsAnswered u = true) : pingsAnswered (t ++ u) = true := by
  simp only [pingsAnswered, decide_eq_true_eq] at ht hu ⊢
  rw [List.foldl_append, ht, hu]

theorem registry_global_emits (I : Interfaces) (w : World) (r n : Nat) (i : String)
    (v b : Nat) :
    ∃ u, (registry_global I w r n i v b).trace = w.trace ++ u ∧
      (∀ x ∈ u, ∃ q : Request, x = Entry.call q ∧ ∀ s k, q ≠ Request.xdg_wm_base_pong s k) := by
  unfold registry_global
  split_ifs
  · exact ⟨[Entry.call (Request.wl_registry_bind r n Iface.wl_compositor 1 b)], rfl, by simp⟩
  · exact ⟨[Entry.call (Request.wl_registry_bind r n Iface.xdg_wm_base 1 b),
      Entry.call (Request.xdg_wm_base_add_listener b)], by simp, by simp⟩
  · exact ⟨[], by simp, by simp⟩

theorem pingsAnswered_of_plain (u : List Entry)
    (h : ∀ x ∈ u, (∀ s k, x ≠ Entry.event (Event.shell_ping s k)) ∧
      ∀ s k, x ≠ Entry.call (Request.xdg_wm_base_pong s k)) :
    pingsAnswered u = true ∧
      ∀ s k, u.count (Entry.call (Request.xdg_wm_base_pong s k)) =
        u.count (Entry.event (Event.shell_ping s k)) := by
  induction u with
  | nil => exact ⟨rfl, fun _ _ => rfl⟩
  | cons x xs ih =>
    obtain ⟨h1, h2⟩ := h x (List.mem_cons_self _ _)
    obtain ⟨i1, i2⟩ := ih (fun y hy => h y (List.mem_cons_of_mem _ hy))
    constructor
    · simp only [pingsAnswered, decide_eq_true_eq, List.foldl_cons] at i1 ⊢
      have hx : pongStep PongState.idle x = PongState.idle := by
        unfold pongStep
        cases x with
        | call q => cases q <;> first | rfl | exact absurd rfl (h2 _ _)
        | event e => cases e <;> first | rfl | exact absurd rfl (h1 _ _)
      rw [hx]
      exact i1
    · intro s k
      rw [List.count_cons_of_ne (h2 s k).symm, List.count_cons_of_ne (h1 s k).symm]
      exact i2 s k

theorem pair_answered (s k : Nat) :
    pingsAnswered [Entry.event (Event.shell_ping s k),
        Entry.call (Request.xdg_wm_base_pong s k)] = true ∧
      ∀ s2 k2, [Entry.event (Event.shell_ping s k),
          Entry.call (Request.xdg_wm_base_pong s k)].count
            (Entry.call (Request.xdg_wm_base_pong s2 k2)) =
        [Entry.event (Event.shell_ping s k),
          Entry.call (Request.xdg_wm_base_pong s k)].count
            (Entry.event (Event.shell_ping s2 k2)) := by
  constructor
  · simp [pingsAnswered, pongStep]
  · intro s2 k2
    by_cases h : s = s2 ∧ k = k2
    · obtain ⟨rfl, rfl⟩ := h
      simp
    · have h1 : Entry.event (Event.shell_ping s k) ≠ Entry.event (Event.shell_ping s2 k2) := by
        simpa using h
      have h2 : Entry.call (Request.xdg_wm_base_pong s k) ≠
          Entry.call (Request.xdg_wm_base_pong s2 k2) := by
        simpa using h
      simp [List.count_cons, h1, h2]

theorem answered_append (t u : List Entry) (ht : Answered t) (hu : Answered u) :
    Answered (t ++ u) :=
  ⟨pingsAnswered_append t u ht.1 hu.1, fun s k => by
    rw [List.count_append, List.count_append, ht.2 s k, hu.2 s k]⟩

theorem answered_of_plain (u : List Entry)
    (h : ∀ x ∈ u, (∀ s k, x ≠ Entry.event (Event.shell_ping s k)) ∧
      ∀ s k, x ≠ Entry.call (Request.xdg_wm_base_pong s k)) : Answered u :=
  pingsAnswered_of_plain u h

theorem answered_call (q : Request) (h : ∀ s k, q ≠ Request.xdg_wm_base_pong s k) :
    Answered [Entry.call q] := by
  apply answered_of_plain
  intro x hx
  rw [List.mem_singleton] at hx
  subst hx
  exact ⟨fun _ _ => by simp, fun s k hh => h s k (by simpa using hh)⟩

theorem deliver_emits (I : Interfaces) (w : World) (e : Event) :
    ∃ u, (deliver I w e).trace = w.trace ++ u ∧ Answered u ∧
      ∀ s k, (Kind.shell, s) ∈ w.listeners → e = Event.shell_ping s k →
        u = [Entry.event (Event.shell_ping s k), Entry.call (Request.xdg_wm_base_pong s k)] := by
  unfold deliver
  cases e with
  | registry_global r n i v b =>
    dsimp only
    split_ifs
    · obtain ⟨u, h1, h2⟩ := registry_global_emits I (w.fire (Event.registry_global r n i v b))
        r n i v b
      refine ⟨Entry.event (Event.registry_global r n i v b) :: u, ?_, ?_, ?_⟩
      · rw [h1, fire_trace]; simp
      · apply answered_of_plain
        intro x hx
        rcases List.mem_cons.1 hx with hx | hx
        · subst hx
          exact ⟨fun _ _ => by simp, fun _ _ => by simp⟩
        · obtain ⟨q, rfl, hq⟩ := h2 x hx
          exact ⟨fun _ _ => by simp, fun s k hh => hq s k (by simpa using hh)⟩
      · intro s k _ he
        simp at he
    · exact ⟨[], by simp, ⟨rfl, fun _ _ => rfl⟩, fun s k _ he => by simp at he⟩
  | registry_global_remove r n =>
    dsimp only
    split_ifs
    · refine ⟨[Entry.event (Event.registry_global_remove r n)], rfl, ?_, ?_⟩
      · apply answered_of_plain
        intro x hx
        rw [List.mem_singleton] at hx
        subst hx
        exact ⟨fun _ _ => by simp, fun _ _ => by simp⟩
      · intro s k _ he
        simp at he
    · exact ⟨[], by simp, ⟨rfl, fun _ _ => rfl⟩, fun s k _ he => by simp at he⟩
  | shell_ping sh n =>
    dsimp only
    split_ifs with hl
    · refine ⟨[Entry.event (Event.shell_ping sh n), Entry.call (Request.xdg_wm_base_pong sh n)],
        by simp [shell_ping], pair_answered sh n, ?_⟩
      intro s k _ he
      simp only [Event.shell_ping.injEq] at he
      obtain ⟨rfl, rfl⟩ := he
      rfl
    · refine ⟨[], by simp, ⟨rfl, fun _ _ => rfl⟩, ?_⟩
      intro s k hs he
      simp only [Event.shell_ping.injEq] at he
      obtain ⟨rfl, rfl⟩ := he
      exact absurd hs hl
  | shell_surface_configure sh n =>
    dsimp only
    split_ifs
    · refine ⟨[Entry.event (Event.shell_surface_configure sh n),
        Entry.call (Request.xdg_surface_ack_configure sh n)], by simp [shell_surface_configure],
        ?_, ?_⟩
      · apply answered_of_plain
        intro x hx
        simp only [List.mem_cons, List.mem_singleton, List.not_mem_nil, or_false] at hx
        rcases hx with hx | hx <;> subst hx <;>
          exact ⟨fun _ _ => by simp, fun _ _ => by simp⟩
      · intro s k _ he
        simp at he
    · exact ⟨[], by simp, ⟨rfl, fun _ _ => rfl⟩, fun s k _ he => by simp at he⟩
  | toplevel_configure t a b st =>
    dsimp only
    split_ifs
    · refine ⟨[Entry.event (Event.toplevel_configure t a b st)], rfl, ?_, ?_⟩
      · apply answered_of_plain
        intro x hx
        rw [List.mem_singleton] at hx
        subst hx
        exact ⟨fun _ _ => by simp, fun _ _ => by simp⟩
      · intro s k _ he
        simp at he
    · exact ⟨[], by simp, ⟨rfl, fun _ _ => rfl⟩, fun s k _ he => by simp at he⟩
  | toplevel_close t =>
    dsimp only
    split_ifs
    · refine ⟨[Entry.event (Event.toplevel_close t)], rfl, ?_, ?_⟩
      · apply answered_of_plain
        intro x hx
        rw [List.mem_singleton] at hx
        subst hx
        exact ⟨fun _ _ => by simp, fun _ _ => by simp⟩
      · intro s k _ he
        simp at he
    · exact ⟨[], by simp, ⟨rfl, fun _ _ => rfl⟩, fun s k _ he => by simp at he⟩

theorem registry_global_listeners_mono (I : Interfaces) (w : World) (r n : Nat) (i : String)
    (v b : Nat) (l : Kind × Ptr) (h : l ∈ w.listeners) :
    l ∈ (registry_global I w r n i v b).listeners := by
  unfold registry_global
  split_ifs
  · exact h
  · simp only [printf_listeners, attach_listeners]
    exact List.mem_cons_of_mem _ h
  · exact h

theorem deliver_listeners_mono (I : Interfaces) (w : World) (e : Event) (l : Kind × Ptr)
    (h : l ∈ w.listeners) : l ∈ (deliver I w e).listeners := by
  unfold deliver
  cases e with
  | registry_global r n i v b =>
    dsimp only
    split_ifs
    · exact registry_global_listeners_mono I _ r n i v b l h
    · exact h
  | _ => dsimp only; split_ifs <;> exact h

theorem dispatch_emits (I : Interfaces) (events : List Event) (w : World) :
    ∃ u, (dispatch I w events).trace = w.trace ++ u ∧ Answered u ∧
      ∀ s k, (Kind.shell, s) ∈ w.listeners → Event.shell_ping s k ∈ events →
        Entry.event (Event.shell_ping s k) ∈ u ∧
        Entry.call (Request.xdg_wm_base_pong s k) ∈ u := by
  induction events generalizing w with
  | nil => exact ⟨[], by simp, ⟨rfl, fun _ _ => rfl⟩, fun s k _ he => by simp at he⟩
  | cons e es ih =>
    obtain ⟨u1, t1, a1, p1⟩ := deliver_emits I w e
    obtain ⟨u2, t2, a2, p2⟩ := ih (deliver I w e)
    refine ⟨u1 ++ u2, ?_, answered_append u1 u2 a1 a2, ?_⟩
    · rw [dispatch_cons, t2, t1, List.append_assoc]
    · intro s k hl hm
      rcases List.mem_cons.1 hm with h | h
      · have hu := p1 s k hl h.symm
        subst hu
        simp
      · obtain ⟨q1, q2⟩ := p2 s k (deliver_listeners_mono I w e _ hl) h
        exact ⟨List.mem_append_right _ q1, List.mem_append_right _ q2⟩

theorem dispatch_listeners_mono (I : Interfaces) (events : List Event) (w : World)
    (l : Kind × Ptr) (h : l ∈ w.listeners) : l ∈ (dispatch I w events).listeners := by
  induction events generalizing w with
  | nil => exact h
  | cons e es ih => exact ih _ (deliver_listeners_mono I w e l h)

theorem poll_emits (I : Interfaces) (p r : List Event) (w : World) :
    ∃ u, (wayland_poll_events I p r w).trace = w.trace ++ u ∧ Answered u ∧
      (w.display ≠ 0 → ∀ s k, (Kind.shell, s) ∈ w.listeners → Event.shell_ping s k ∈ p ++ r →
        Entry.event (Event.shell_ping s k) ∈ u ∧
        Entry.call (Request.xdg_wm_base_pong s k) ∈ u) := by
  unfold wayland_poll_events
  split_ifs with hd
  · obtain ⟨u1, t1, a1, p1⟩ := dispatch_emits I p
      (w.call (Request.wl_display_dispatch_pending w.display))
    obtain ⟨u2, t2, a2, p2⟩ := dispatch_emits I r
      ((dispatch I (w.call (Request.wl_display_dispatch_pending w.display)) p).call
        (Request.wl_display_roundtrip
          (dispatch I (w.call (Request.wl_display_dispatch_pending w.display)) p).display))
    refine ⟨([Entry.call (Request.wl_display_dispatch_pending w.display)] ++ u1) ++
      ([Entry.call (Request.wl_display_roundtrip
        (dispatch I (w.call (Request.wl_display_dispatch_pending w.display)) p).display)] ++ u2),
      ?_, ?_, ?_⟩
    · rw [t2, call_trace, t1, call_trace]
      simp only [List.append_assoc]
    · exact answered_append _ _
        (answered_append _ _ (answered_call _ (fun _ _ => by simp)) a1)
        (answered_append _ _ (answered_call _ (fun _ _ => by simp)) a2)
    · intro _ s k hl hm
      rcases List.mem_append.1 hm with h | h
      · obtain ⟨q1, q2⟩ := p1 s k hl h
        exact ⟨List.mem_append_left _ (List.mem_append_right _ q1),
          List.mem_append_left _ (List.mem_append_right _ q2)⟩
      · obtain ⟨q1, q2⟩ := p2 s k (dispatch_listeners_mono I p _ _ hl) h
        exact ⟨List.mem_append_right _ (List.mem_append_right _ q1),
          List.mem_append_right _ (List.mem_append_right _ q2)⟩
  · exact ⟨[], by simp, ⟨rfl, fun _ _ => rfl⟩, fun h => absurd (not_not.1 hd) h⟩

/-- C9: `shell_ping` sends exactly one request, the pong to the shell object that got the ping
with the token of the ping, and changes neither handles, quit flag, listeners nor output. In the
requests and callbacks one `wayland_poll_events` adds to the trace every run of `shell_ping` is
followed at once by that pong, and for every shell object and token there are as many pongs as
pings; and when the connection is not `NULL`, every ping of the two event batches addressed to a
shell object with the ping listener attached is run and answered within that call. -/
theorem ping_answered_by_one_pong (I : Interfaces) :
    (∀ (w : World) (s k : Nat),
      (shell_ping w s k).trace = w.trace ++ [Entry.call (Request.xdg_wm_base_pong s k)] ∧
      (shell_ping w s k).session = w.session ∧ (shell_ping w s k).out = w.out) ∧
    (∀ (w : World) (p r : List Event),
      ∃ u, (wayland_poll_events I p r w).trace = w.trace ++ u ∧
        pingsAnswered u = true ∧
        (∀ s k, u.count (Entry.call (Request.xdg_wm_base_pong s k)) =
          u.count (Entry.event (Event.shell_ping s k))) ∧
        (w.display ≠ 0 → ∀ s k, (Kind.shell, s) ∈ w.listeners →
          Event.shell_ping s k ∈ p ++ r →
          Entry.event (Event.shell_ping s k) ∈ u ∧
          Entry.call (Request.xdg_wm_base_pong s k) ∈ u)) := by
  refine ⟨fun w s k => ⟨rfl, rfl, rfl⟩, fun w p r => ?_⟩
  obtain ⟨u, h1, h2, h3⟩ := poll_emits I p r w
  exact ⟨u, h1, h2.1, h2.2, h3⟩

/-- C9 at a concrete run: after `script_ok`, a poll whose pending batch holds a ping with token
11 for the shell object 4 has sent the pong with token 11 to the shell object 4 when it
returns. -/
theorem ping_answered_by_one_pong_witness :
    Entry.call (Request.xdg_wm_base_pong 4 11) ∈
      (wayland_poll_events protocol [Event.shell_ping 4 11] []
        (wayland_init protocol script_ok World.start).2).trace := by
  obtain ⟨u, h1, _, _, h4⟩ := (ping_answered_by_one_pong protocol).2
    (wayland_init protocol script_ok World.start).2 [Event.shell_ping 4 11] []
  rw [h1]
  exact List.mem_append_right _ (h4 (by decide) 4 11 (by decide) (by decide)).2

/-! ### Instance counts -/

theorem created_append (k : Kind) (t u : List Entry) :
    created k (t ++ u) = created k t + created k u := by
  simp [created, List.countP_append]

theorem released_append (k : Kind) (t u : List Entry) :
    released k (t ++ u) = released k t + released k u := by
  simp [released, List.countP_append]

theorem created_event (k : Kind) (e : Event) : created k [Entry.event e] = 0 := by
  simp [created, Entry.creates]

theorem released_event (k : Kind) (e : Event) : released k [Entry.event e] = 0 := by
  simp [released, Entry.destroys]

theorem created_call (k : Kind) (r : Request) :
    created k [Entry.call r] = if r.creates = some k then 1 else 0 := by
  simp [created, Entry.creates, List.countP_cons]

theorem released_call (k : Kind) (r : Request) :
    released k [Entry.call r] = if r.destroys = some k then 1 else 0 := by
  simp [released, Entry.destroys, List.countP_cons]

theorem balanced_of_plain (k : Kind) (v w : World) (u : List Entry)
    (ht : v.trace = w.trace ++ u) (hc : created k u = 0) (hr : released k u = 0)
    (hh : v.handle k = w.handle k) (h : w.balanced k) : v.balanced k := by
  unfold World.balanced at h ⊢
  rw [ht, created_append, released_append, hc, hr, hh, h]
  omega

theorem balanced_of_acquire (k j : Kind) (v w : World) (r : Request) (p : Ptr)
    (ht : v.trace = w.trace ++ [Entry.call r])
    (hc : r.creates = if p = 0 then none else some j) (hd : r.destroys = none)
    (hj : v.handle j = p) (ho : ∀ x, x ≠ j → v.handle x = w.handle x) (h0 : w.handle j = 0)
    (h : w.balanced k) : v.balanced k := by
  unfold World.balanced at h ⊢
  rw [ht, created_append, released_append, created_call, released_call, hc, hd, h]
  by_cases hk : k = j
  · subst hk
    rw [hj, h0]
    by_cases hp : p = 0
    · simp [hp]
    · simp [hp]
  · rw [ho k hk]
    by_cases hp : p = 0
    · simp [hp]
    · have : ¬ (some j = some k) := fun hh => hk (Option.some.inj hh).symm
      simp [hp, this]

theorem balanced_of_release (k j : Kind) (v w : World) (r : Request)
    (ht : v.trace = w.trace ++ [Entry.call r])
    (hc : r.creates = none) (hd : r.destroys = some j)
    (hj : v.handle j = 0) (ho : ∀ x, x ≠ j → v.handle x = w.handle x) (h0 : w.handle j ≠ 0)
    (h : w.balanced k) : v.balanced k := by
  unfold World.balanced at h ⊢
  rw [ht, created_append, released_append, created_call, released_call, hc, hd, h]
  by_cases hk : k = j
  · subst hk
    rw [hj]
    simp [h0]
  · rw [ho k hk]
    have : ¬ (some j = some k) := fun hh => hk (Option.some.inj hh).symm
    simp [this]

theorem setHandle_handle (w : World) (j k : Kind) (p : Ptr) :
    (w.setHandle j p).handle k = if k = j then p else w.handle k := by
  cases j <;> cases k <;> simp [World.setHandle, World.handle]

theorem drop_balanced (k j : Kind) (w : World) (h : w.balanced k) :
    (World.drop j w).balanced k := by
  by_cases h0 : w.handle j = 0
  · rw [drop_of_null j w h0]; exact h
  · apply balanced_of_release k j _ w (j.destroy (w.handle j)) _ _ _ _ _ h0 h
    · rw [drop_trace]; simp [h0]
    · cases j <;> rfl
    · cases j <;> rfl
    · rw [drop_handle]; simp
    · intro x hx
      rw [drop_handle]
      simp [hx]

theorem cleanup_balanced (k : Kind) (w : World) (h : w.balanced k) :
    (wayland_cleanup w).balanced k := by
  rw [wayland_cleanup_eq_drops]
  iterate 7 apply drop_balanced
  exact h

theorem registry_global_unrelated (I : Interfaces) (k : Kind) (w : World) (r n : Nat)
    (i : String) (v b : Nat)
    (h : (Event.registry_global r n i v b).capability I ≠ some k) :
    created k (registry_global I w r n i v b).trace = created k w.trace ∧
    released k (registry_global I w r n i v b).trace = released k w.trace ∧
    (registry_global I w r n i v b).handle k = w.handle k := by
  unfold registry_global
  simp only [Event.capability] at h
  split_ifs at h ⊢ with h1 h2
  · have hk : Kind.compositor ≠ k := fun hh => h (by rw [hh])
    refine ⟨?_, ?_, ?_⟩
    · rw [printf_trace]
      show created k (w.trace ++ [_]) = _
      rw [created_append, created_call]
      by_cases hb : b = 0 <;> simp [Request.creates, hb, hk]
    · rw [printf_trace]
      show released k (w.trace ++ [_]) = _
      rw [released_append, released_call]
      simp [Request.destroys]
    · cases k <;> first | rfl | exact absurd rfl hk
  · have hk : Kind.shell ≠ k := fun hh => h (by rw [hh])
    refine ⟨?_, ?_, ?_⟩
    · rw [printf_trace, attach_trace]
      show created k ((w.trace ++ [_]) ++ [_]) = _
      rw [created_append, created_append, created_call, created_call]
      by_cases hb : b = 0 <;> simp [Request.creates, hb, hk]
    · rw [printf_trace, attach_trace]
      show released k ((w.trace ++ [_]) ++ [_]) = _
      rw [released_append, released_append, released_call, released_call]
      simp [Request.destroys]
    · cases k <;> first | rfl | exact absurd rfl hk
  · exact ⟨rfl, rfl, rfl⟩

theorem fire_counts (k : Kind) (w : World) (e : Event) :
    created k (w.fire e).trace = created k w.trace ∧
    released k (w.fire e).trace = released k w.trace ∧ (w.fire e).handle k = w.handle k := by
  refine ⟨?_, ?_, ?_⟩
  · rw [fire_trace, created_append, created_event]; rfl
  · rw [fire_trace, released_append, released_event]; rfl
  · cases k <;> rfl

theorem deliver_unrelated (I : Interfaces) (k : Kind) (w : World) (e : Event)
    (h : e.capability I ≠ some k) :
    created k (deliver I w e).trace = created k w.trace ∧
    released k (deliver I w e).trace = released k w.trace ∧
    (deliver I w e).handle k = w.handle k := by
  obtain ⟨f1, f2, f3⟩ := fire_counts k w e
  unfold deliver
  cases e with
  | registry_global r n i v b =>
    dsimp only
    split_ifs
    · obtain ⟨g1, g2, g3⟩ := registry_global_unrelated I k
        (w.fire (Event.registry_global r n i v b)) r n i v b h
      exact ⟨g1.trans f1, g2.trans f2, g3.trans f3⟩
    · exact ⟨rfl, rfl, rfl⟩
  | registry_global_remove r n =>
    dsimp only
    split_ifs
    · exact ⟨f1, f2, f3⟩
    · exact ⟨rfl, rfl, rfl⟩
  | shell_ping sh n =>
    dsimp only
    split_ifs
    · refine ⟨?_, ?_, ?_⟩
      · rw [← f1]
        show created k (_ ++ [_]) = _
        rw [created_append, created_call]; simp [Request.creates]
      · rw [← f2]
        show released k (_ ++ [_]) = _
        rw [released_append, released_call]; simp [Request.destroys]
      · cases k <;> rfl
    · exact ⟨rfl, rfl, rfl⟩
  | shell_surface_configure sh n =>
    dsimp only
    split_ifs
    · refine ⟨?_, ?_, ?_⟩
      · rw [← f1]
        show created k (_ ++ [_]) = _
        rw [created_append, created_call]; simp [Request.creates]
      · rw [← f2]
        show released k (_ ++ [_]) = _
        rw [released_append, released_call]; simp [Request.destroys]
      · cases k <;> rfl
    · exact ⟨rfl, rfl, rfl⟩
  | toplevel_configure t a b st =>
    dsimp only
    split_ifs
    · exact ⟨f1, f2, f3⟩
    · exact ⟨rfl, rfl, rfl⟩
  | toplevel_close t =>
    dsimp only
    split_ifs
    · refine ⟨f1, f2, ?_⟩
      cases k <;> rfl
    · exact ⟨rfl, rfl, rfl⟩

theorem balanced_of_same (k : Kind) (v w : World) (hc : created k v.trace = created k w.trace)
    (hr : released k v.trace = released k w.trace) (hh : v.handle k = w.handle k)
    (h : w.balanced k) : v.balanced k := by
  unfold World.balanced at h ⊢
  rw [hc, hr, hh, h]

theorem fire_balanced (k : Kind) (w : World) (e : Event) (h : w.balanced k) :
    (w.fire e).balanced k :=
  balanced_of_same k _ w (fire_counts k w e).1 (fire_counts k w e).2.1 (fire_counts k w e).2.2 h

theorem registry_global_related (I : Interfaces) (k : Kind) (w : World) (r n : Nat)
    (i : String) (v b : Nat) (h : (Event.registry_global r n i v b).capability I = some k)
    (h0 : w.handle k = 0) (hb : w.balanced k) : (registry_global I w r n i v b).balanced k := by
  unfold registry_global
  simp only [Event.capability] at h
  split_ifs at h ⊢ with h1 h2
  · have hk : k = Kind.compositor := (Option.some.inj h).symm
    subst hk
    refine balanced_of_acquire Kind.compositor Kind.compositor _ w
      (Request.wl_registry_bind r n Iface.wl_compositor 1 b) b ?_ ?_ ?_ ?_ ?_ h0 hb
    · rfl
    · rfl
    · rfl
    · rfl
    · intro x hx
      cases x <;> first | rfl | exact absurd rfl hx
  · have hk : k = Kind.shell := (Option.some.inj h).symm
    subst hk
    have hs : ({ w.call (Request.wl_registry_bind r n Iface.xdg_wm_base 1 b) with
        shell := b } : World).balanced Kind.shell := by
      refine balanced_of_acquire Kind.shell Kind.shell _ w
        (Request.wl_registry_bind r n Iface.xdg_wm_base 1 b) b ?_ ?_ ?_ ?_ ?_ h0 hb
      · rfl
      · rfl
      · rfl
      · rfl
      · intro x hx
        cases x <;> first | rfl | exact absurd rfl hx
    apply balanced_of_plain Kind.shell _ _ [Entry.call (Request.xdg_wm_base_add_listener b)]
      _ _ _ _ hs
    · rfl
    · rw [created_call]; simp [Request.creates]
    · rw [released_call]; simp [Request.destroys]
    · rfl

theorem deliver_related (I : Interfaces) (k : Kind) (w : World) (e : Event)
    (h : e.capability I = some k) (h0 : w.handle k = 0) (hb : w.balanced k) :
    (deliver I w e).balanced k := by
  unfold deliver
  cases e with
  | registry_global r n i v b =>
    dsimp only
    split_ifs
    · exact registry_global_related I k _ r n i v b h
        ((fire_counts k w _).2.2.trans h0) (fire_balanced k w _ hb)
    · exact hb
  | _ => simp [Event.capability] at h

theorem announcements_cons (I : Interfaces) (k : Kind) (e : Event) (es : List Event) :
    announcements I k (e :: es) =
      announcements I k es + (if e.capability I = some k then 1 else 0) := by
  simp [announcements, List.countP_cons]

theorem announcements_append (I : Interfaces) (k : Kind) (es fs : List Event) :
    announcements I k (es ++ fs) = announcements I k es + announcements I k fs := by
  simp [announcements, List.countP_append]

theorem dispatch_balanced (I : Interfaces) (k : Kind) (events : List Event) (w : World)
    (m : Nat) (hb : w.balanced k)
    (hn : announcements I k events + m = 0 ∨
      (announcements I k events + m ≤ 1 ∧ w.handle k = 0)) :
    (dispatch I w events).balanced k ∧
      (m = 0 ∨ (m ≤ 1 ∧ (dispatch I w events).handle k = 0)) := by
  induction events generalizing w with
  | nil =>
    refine ⟨hb, ?_⟩
    simp only [announcements, List.countP_nil, Nat.zero_add] at hn
    exact hn
  | cons e es ih =>
    rw [dispatch_cons]
    rw [announcements_cons] at hn
    by_cases hc : e.capability I = some k
    · simp only [hc, if_true] at hn
      have h0 : w.handle k = 0 := by
        rcases hn with h | h
        · omega
        · exact h.2
      have hz : announcements I k es + m = 0 := by
        rcases hn with h | h
        · omega
        · omega
      exact ih _ (deliver_related I k w e hc h0 hb) (Or.inl hz)
    · simp only [hc, if_false, Nat.add_zero] at hn
      obtain ⟨u1, u2, u3⟩ := deliver_unrelated I k w e hc
      apply ih _ (balanced_of_same k _ w u1 u2 u3 hb)
      rw [u3]
      exact hn

theorem capability_kind (I : Interfaces) (e : Event) (k : Kind) (h : e.capability I = some k) :
    k = Kind.compositor ∨ k = Kind.shell := by
  cases e with
  | registry_global r n i v b =>
    simp only [Event.capability] at h
    split_ifs at h
    · exact Or.inl (Option.some.inj h).symm
    · exact Or.inr (Option.some.inj h).symm
  | _ => simp [Event.capability] at h

theorem announcements_core (I : Interfaces) (k : Kind) (events : List Event)
    (hk : k ≠ Kind.compositor ∧ k ≠ Kind.shell) : announcements I k events = 0 := by
  unfold announcements
  rw [List.countP_eq_zero]
  intro e _ h
  rcases capability_kind I e k (by simpa using h) with h1 | h1
  · exact hk.1 h1
  · exact hk.2 h1

theorem call_balanced (k : Kind) (w : World) (r : Request) (hc : r.creates = none)
    (hd : r.destroys = none) (h : w.balanced k) : (w.call r).balanced k := by
  apply balanced_of_plain k _ w [Entry.call r] rfl _ _ _ h
  · rw [created_call, hc]; simp
  · rw [released_call, hd]; simp
  · cases k <;> rfl

theorem attach_balanced (k : Kind) (w : World) (r : Request) (j : Kind) (p : Ptr)
    (hc : r.creates = none) (hd : r.destroys = none) (h : w.balanced k) :
    (w.attach r j p).balanced k := by
  apply balanced_of_plain k _ w [Entry.call r] rfl _ _ _ h
  · rw [created_call, hc]; simp
  · rw [released_call, hd]; simp
  · cases k <;> rfl

theorem printf_balanced (k : Kind) (w : World) (p : Printed) (h : w.balanced k) :
    (w.printf p).balanced k := by
  apply balanced_of_plain k _ w [] _ rfl rfl _ h
  · simp
  · cases k <;> rfl

theorem poll_balanced (I : Interfaces) (k : Kind) (p r : List Event) (w : World)
    (ha : announcements I k (p ++ r) = 0) (h : w.balanced k) :
    (wayland_poll_events I p r w).balanced k := by
  rw [announcements_append] at ha
  unfold wayland_poll_events
  split_ifs
  · have h1 := (dispatch_balanced I k p (w.call (Request.wl_display_dispatch_pending w.display))
      0 (call_balanced k w _ rfl rfl h) (Or.inl (by omega))).1
    exact (dispatch_balanced I k r _ 0
      (call_balanced k _ (Request.wl_display_roundtrip _) rfl rfl h1) (Or.inl (by omega))).1
  · exact h

theorem init_connect_balanced (k : Kind) (L : InitScript) (w : World) (h0 : w.display = 0)
    (h : w.balanced k) : (init_connect L w).balanced k := by
  refine balanced_of_acquire k Kind.display _
    (w.printf (Printed.text "Initializing Wayland with XDG shell...\n"))
    (Request.wl_display_connect L.connect) L.connect ?_ ?_ ?_ ?_ ?_ h0 (printf_balanced k w _ h)
  · rfl
  · rfl
  · rfl
  · rfl
  · intro x hx
    cases x <;> first | rfl | exact absurd rfl hx

theorem init_registry_balanced (k : Kind) (L : InitScript) (w : World) (h0 : w.display = 0)
    (h1 : w.registry = 0) (h : w.balanced k) : (init_registry L w).balanced k := by
  refine balanced_of_acquire k Kind.registry _
    ((init_connect L w).printf (Printed.text "Connected to Wayland display\n"))
    (Request.wl_display_get_registry L.connect L.get_registry) L.get_registry ?_ ?_ ?_ ?_ ?_ h1
    (printf_balanced k _ _ (init_connect_balanced k L w h0 h))
  · rfl
  · rfl
  · rfl
  · rfl
  · intro x hx
    cases x <;> first | rfl | exact absurd rfl hx

theorem init_discover_balanced (I : Interfaces) (k : Kind) (L : InitScript) (w : World)
    (hn : w.allNull) (h : w.balanced k)
    (ha : announcements I k (L.dispatch ++ L.roundtrip ++ L.roundtrip2) ≤ 1) :
    (init_discover I L w).balanced k ∧
      (announcements I k L.roundtrip2 = 0 ∨
        (announcements I k L.roundtrip2 ≤ 1 ∧ (init_discover I L w).handle k = 0)) := by
  rw [announcements_append, announcements_append] at ha
  rw [init_discover_eq_dispatch]
  have hb0 := init_registry_balanced k L w hn.1 hn.2.1 h
  have hb1 : (((init_registry L w).attach (Request.wl_registry_add_listener L.get_registry)
      Kind.registry L.get_registry).call (Request.wl_display_dispatch L.connect)).balanced k :=
    call_balanced k _ _ rfl rfl (attach_balanced k _ _ _ _ rfl rfl hb0)
  by_cases hk : k = Kind.compositor ∨ k = Kind.shell
  · have hz : (((init_registry L w).attach (Request.wl_registry_add_listener L.get_registry)
        Kind.registry L.get_registry).call (Request.wl_display_dispatch L.connect)).handle k
        = 0 := by
      rcases hk with rfl | rfl
      · exact hn.2.2.1
      · exact hn.2.2.2.1
    obtain ⟨b1, d1⟩ := dispatch_balanced I k L.dispatch _
      (announcements I k L.roundtrip + announcements I k L.roundtrip2) hb1
      (Or.inr ⟨by omega, hz⟩)
    apply dispatch_balanced I k L.roundtrip _ (announcements I k L.roundtrip2)
      (call_balanced k _ (Request.wl_display_roundtrip L.connect) rfl rfl b1)
    rcases d1 with d | d
    · exact Or.inl d
    · refine Or.inr ⟨d.1, ?_⟩
      rcases hk with rfl | rfl
      · exact d.2
      · exact d.2
  · rw [not_or] at hk
    have z1 := announcements_core I k L.dispatch hk
    have z2 := announcements_core I k L.roundtrip hk
    have z3 := announcements_core I k L.roundtrip2 hk
    obtain ⟨b1, _⟩ := dispatch_balanced I k L.dispatch _ 0 hb1 (Or.inl (by omega))
    obtain ⟨b2, _⟩ := dispatch_balanced I k L.roundtrip _ 0
      (call_balanced k _ (Request.wl_display_roundtrip L.connect) rfl rfl b1) (Or.inl (by omega))
    exact ⟨b2, Or.inl z3⟩

theorem init_surface_balanced (I : Interfaces) (k : Kind) (L : InitScript) (w : World)
    (h0 : w.surface = 0) (h : (init_discover I L w).balanced k) :
    (init_surface I L w).balanced k := by
  refine balanced_of_acquire k Kind.surface _ (init_discover I L w)
    (Request.wl_compositor_create_surface (init_discover I L w).compositor L.create_surface)
    L.create_surface ?_ ?_ ?_ ?_ ?_ ((init_discover_surface I L w).trans h0) h
  · rfl
  · rfl
  · rfl
  · rfl
  · intro x hx
    cases x <;> first | rfl | exact absurd rfl hx

theorem init_shell_surface_balanced (I : Interfaces) (k : Kind) (L : InitScript) (w : World)
    (h0 : w.surface = 0) (h1 : w.shell_surface = 0) (h : (init_discover I L w).balanced k) :
    (init_shell_surface I L w).balanced k := by
  refine balanced_of_acquire k Kind.shell_surface _
    ((init_surface I L w).printf (Printed.text "Created surface\n"))
    (Request.xdg_wm_base_get_xdg_surface (init_discover I L w).shell L.create_surface
      L.get_xdg_surface)
    L.get_xdg_surface ?_ ?_ ?_ ?_ ?_ ((init_discover_shell_surface I L w).trans h1)
    (printf_balanced k _ _ (init_surface_balanced I k L w h0 h))
  · rfl
  · rfl
  · rfl
  · rfl
  · intro x hx
    cases x <;> first | rfl | exact absurd rfl hx

theorem init_toplevel_eq (I : Interfaces) (L : InitScript) (w : World) :
    init_toplevel I L w =
      { ((init_shell_surface I L w).attach (Request.xdg_surface_add_listener L.get_xdg_surface)
          Kind.shell_surface L.get_xdg_surface).call
          (Request.xdg_surface_get_toplevel L.get_xdg_surface L.get_toplevel) with
        toplevel := L.get_toplevel } := by
  unfold init_toplevel
  simp only [init_shell_surface_shell_surface, attach_shell_surface]

theorem init_toplevel_balanced (I : Interfaces) (k : Kind) (L : InitScript) (w : World)
    (h0 : w.surface = 0) (h1 : w.shell_surface = 0) (h2 : w.toplevel = 0)
    (h : (init_discover I L w).balanced k) : (init_toplevel I L w).balanced k := by
  rw [init_toplevel_eq]
  refine balanced_of_acquire k Kind.toplevel _
    ((init_shell_surface I L w).attach (Request.xdg_surface_add_listener L.get_xdg_surface)
      Kind.shell_surface L.get_xdg_surface)
    (Request.xdg_surface_get_toplevel L.get_xdg_surface L.get_toplevel)
    L.get_toplevel ?_ ?_ ?_ ?_ ?_ ?_
    (attach_balanced k _ _ _ _ rfl rfl (init_shell_surface_balanced I k L w h0 h1 h))
  · rfl
  · rfl
  · rfl
  · rfl
  · intro x hx
    cases x <;> first | rfl | exact absurd rfl hx
  · show (init_shell_surface I L w).toplevel = 0
    rw [(init_stage_handles I L w).2.2.2.1.2.2.2.2.2]
    exact h2

theorem init_commit_balanced (I : Interfaces) (k : Kind) (L : InitScript) (w : World)
    (h0 : w.surface = 0) (h1 : w.shell_surface = 0) (h2 : w.toplevel = 0)
    (h : (init_discover I L w).balanced k) : (init_commit I L w).balanced k := by
  have ht := init_toplevel_balanced I k L w h0 h1 h2 h
  unfold init_commit
  exact call_balanced k _ (Request.wl_surface_commit _) rfl rfl
    (call_balanced k _ (Request.xdg_toplevel_set_app_id _ _) rfl rfl
      (call_balanced k _ (Request.xdg_toplevel_set_title _ _) rfl rfl
        (attach_balanced k _ (Request.xdg_toplevel_add_listener _) _ _ rfl rfl ht)))

theorem init_commit_handle (I : Interfaces) (L : InitScript) (w : World) (k : Kind)
    (hk : k = Kind.compositor ∨ k = Kind.shell) :
    (init_commit I L w).handle k = (init_discover I L w).handle k := by
  obtain ⟨c1, c2⟩ := init_commit_caps I L w
  rcases hk with rfl | rfl
  · exact c1
  · exact c2

theorem init_complete_balanced (I : Interfaces) (k : Kind) (L : InitScript) (w : World)
    (h0 : w.surface = 0) (h1 : w.shell_surface = 0) (h2 : w.toplevel = 0)
    (h : (init_discover I L w).balanced k)
    (ha : announcements I k L.roundtrip2 = 0 ∨
      (announcements I k L.roundtrip2 ≤ 1 ∧ (init_discover I L w).handle k = 0)) :
    (init_complete I L w).balanced k := by
  have hc := init_commit_balanced I k L w h0 h1 h2 h
  rw [init_complete_eq]
  apply printf_balanced
  apply call_balanced k _ (Request.wl_surface_commit L.create_surface) rfl rfl
  have hx := call_balanced k (init_commit I L w) (Request.wl_display_roundtrip L.connect)
    rfl rfl hc
  by_cases hk : k = Kind.compositor ∨ k = Kind.shell
  · refine (dispatch_balanced I k L.roundtrip2 _ 0 hx ?_).1
    rcases ha with a | a
    · exact Or.inl (by omega)
    · refine Or.inr ⟨by omega, ?_⟩
      have := init_commit_handle I L w k hk
      rcases hk with rfl | rfl
      · exact this.trans a.2
      · exact this.trans a.2
  · rw [not_or] at hk
    exact (dispatch_balanced I k L.roundtrip2 _ 0 hx
      (Or.inl (by rw [announcements_core I k _ hk]))).1

theorem wayland_init_balanced (I : Interfaces) (k : Kind) (L : InitScript) (w : World)
    (hn : w.allNull) (h : w.balanced k)
    (ha : announcements I k (L.dispatch ++ L.roundtrip ++ L.roundtrip2) ≤ 1) :
    (wayland_init I L w).2.balanced k := by
  obtain ⟨n1, n2, n3, n4, n5, n6, n7⟩ := hn
  obtain ⟨hd, hr⟩ := init_discover_balanced I k L w ⟨n1, n2, n3, n4, n5, n6, n7⟩ h ha
  rw [wayland_init_eq_stages]
  split_ifs
  · exact printf_balanced k _ _ (init_connect_balanced k L w n1 h)
  · exact printf_balanced k _ _ (init_registry_balanced k L w n1 n2 h)
  · exact printf_balanced k _ _ hd
  · exact printf_balanced k _ _ (init_surface_balanced I k L w n5 hd)
  · exact printf_balanced k _ _ (init_shell_surface_balanced I k L w n5 n6 hd)
  · exact printf_balanced k _ _ (init_toplevel_balanced I k L w n5 n6 n7 hd)
  · exact init_complete_balanced I k L w n5 n6 n7 hd hr

/-! ### Instance counts along disciplined runs -/

theorem step_balanced (I : Interfaces) (k : Kind) (w : World) (op : Op)
    (hi : op.isInit = true → w.allNull)
    (ha : (k ≠ Kind.compositor ∧ k ≠ Kind.shell) ∨ op.announcesOnce I = true)
    (h : w.balanced k) : (step I w op).balanced k := by
  cases op with
  | wayland_init L =>
    apply wayland_init_balanced I k L w (hi rfl) h
    by_cases hk : k ≠ Kind.compositor ∧ k ≠ Kind.shell
    · rw [announcements_core I k _ hk]
      exact Nat.zero_le 1
    · rcases ha with ha | ha
      · exact absurd ha hk
      · simp only [Op.announcesOnce, Bool.and_eq_true, decide_eq_true_eq] at ha
        by_cases hc : k = Kind.compositor
        · rw [hc]; exact ha.1
        · have hs : k = Kind.shell := by
            by_contra hs
            exact hk ⟨hc, hs⟩
          rw [hs]; exact ha.2
  | wayland_poll_events p r =>
    apply poll_balanced I k p r w _ h
    by_cases hk : k ≠ Kind.compositor ∧ k ≠ Kind.shell
    · exact announcements_core I k _ hk
    · rcases ha with ha | ha
      · exact absurd ha hk
      · simp only [Op.announcesOnce, Bool.and_eq_true, decide_eq_true_eq] at ha
        by_cases hc : k = Kind.compositor
        · rw [hc]; exact ha.1
        · have hs : k = Kind.shell := by
            by_contra hs
            exact hk ⟨hc, hs⟩
          rw [hs]; exact ha.2
  | wayland_cleanup => exact cleanup_balanced k w h
  | get_wayland_display => exact h
  | get_wayland_surface => exact h
  | wayland_should_quit => exact h

theorem run_balanced (I : Interfaces) (k : Kind) (ops : List Op) (w : World)
    (hd : Disciplined I w ops)
    (ha : (k ≠ Kind.compositor ∧ k ≠ Kind.shell) ∨ ∀ op ∈ ops, op.announcesOnce I = true)
    (h : w.balanced k) : (run I w ops).balanced k := by
  induction ops generalizing w with
  | nil => exact h
  | cons op ops ih =>
    apply ih (step I w op) hd.2
    · rcases ha with ha | ha
      · exact Or.inl ha
      · exact Or.inr (fun o ho => ha o (List.mem_cons_of_mem _ ho))
    · apply step_balanced I k w op hd.1 _ h
      rcases ha with ha | ha
      · exact Or.inl ha
      · exact Or.inr (ha op (List.mem_cons_self _ _))

theorem live_of_balanced (k : Kind) (w : World) (h : w.balanced k) :
    live k w.trace = if w.handle k = 0 then 0 else 1 := by
  unfold World.balanced at h
  unfold live
  rw [h]
  split_ifs <;> simp

/-- C10, the claim as stated fails. Two calls of `wayland_init` without a `wayland_cleanup` in
between leave two connections that were created and not released; and within one
`wayland_init` a registry that announces two compositor globals leaves two bound compositor
proxies, the first of which the session no longer holds. -/
theorem two_live_instances_after_reinit_and_after_two_announcements :
    live Kind.display
      (run protocol World.start [Op.wayland_init script_ok, Op.wayland_init script_ok]).trace
      = 2 ∧
    live Kind.compositor
      (run protocol World.start [Op.wayland_init script_two_compositors]).trace = 2 := by
  decide

/-- C10, amended: along every run from the start state in which `wayland_init` is only called
while all seven handles are `NULL`, the number of connections, registries, surfaces, shell
surfaces and toplevels created and not yet released is 1 when the handle is held and 0 when it
is `NULL`, so never more than one; the same holds for the compositor and the shell when the
registry announces each of the two interfaces at most once per `wayland_init` and never during
`wayland_poll_events`. -/
theorem at_most_one_instance_along_disciplined_runs (I : Interfaces) (ops : List Op) (k : Kind)
    (hd : Disciplined I World.start ops)
    (ha : (k ≠ Kind.compositor ∧ k ≠ Kind.shell) ∨ ∀ op ∈ ops, op.announcesOnce I = true) :
    live k (run I World.start ops).trace =
      (if (run I World.start ops).handle k = 0 then 0 else 1) ∧
    live k (run I World.start ops).trace ≤ 1 := by
  have hb : World.start.balanced k := by
    cases k <;> simp [World.balanced, World.start, World.handle, created, released]
  have h := live_of_balanced k _ (run_balanced I k ops World.start hd ha hb)
  refine ⟨h, ?_⟩
  rw [h]
  split_ifs <;> decide

/-- C10, the amended claim at a concrete run: `script_ok`, a poll, `wayland_cleanup` and
`script_ok` again leave at most one live shell. -/
theorem at_most_one_instance_along_disciplined_runs_witness :
    Disciplined protocol World.start
      [Op.wayland_init script_ok, Op.wayland_poll_events [Event.shell_ping 4 11] [],
       Op.wayland_cleanup, Op.wayland_init script_ok] ∧
    live Kind.shell (run protocol World.start
      [Op.wayland_init script_ok, Op.wayland_poll_events [Event.shell_ping 4 11] [],
       Op.wayland_cleanup, Op.wayland_init script_ok]).trace ≤ 1 :=
  ⟨by decide,
   (at_most_one_instance_along_disciplined_runs protocol _ Kind.shell (by decide)
     (Or.inr (by decide))).2⟩

end WaylandWrapper
